import Mathlib

/-!
# Verification of `pkg/zfs/zfs.go` (kubernetes-zfs-provisioner)

The package wraps the `go-zfs` library behind four operations
(`GetDataset`, `CreateDataset`, `DestroyDataset`, `SetPermissions`).  Every
operation addresses its target host through the process environment variable
`ZFS_HOST` and serialises on one package-level `sync.Mutex`.

## Embedding

* The outside world (the zfs subsystem, the process environment, `$PATH`, the
  permission helper, the local filesystem) is a type `W` together with a record
  `Sys W` of transition functions, one per library call the package makes.
  Nothing is assumed about them.
* The state of the process is `State W`: the world, the environment variables,
  whether `globalLock` is held, and the trace of calls made so far.
* A Go function `f(args) ret` becomes `f sys args : State W → Option (ret × State W)`;
  `none` means that the call does not return normally (it blocks for ever on the
  non-reentrant mutex, or panics).
* `defer globalLock.Unlock()` is rendered as "run the rest of the body, then
  unlock", which is what the deferred call does on each `return`.
* Go's `(*Dataset, error)` result is the pair `Option Dataset × Option GoError`.
-/

namespace zfs

/-! ## Data model -/

/-- Go `error` values: `new` is an error with a message (`errors.New`,
`fmt.Errorf` without `%w`, or an error of a library), `wrap` is `fmt.Errorf`
with a `%w` verb, which keeps the wrapped cause. -/
inductive GoError where
  | new (msg : String)
  | wrap (msg : String) (cause : GoError)
deriving DecidableEq

/-- The method `Error()` of a Go error: its message. -/
def GoError.Error : GoError → String
  | .new msg => msg
  | .wrap msg _ => msg

/-- The `gozfs.Dataset` of the go-zfs library (the backing handle).  Only the
two fields the package reads are kept. -/
structure gozfs.Dataset where
  Name : String
  Mountpoint : String
deriving DecidableEq

/-- The `gozfs.DestroyFlag` constants of the go-zfs library. -/
inductive gozfs.DestroyFlag where
  | DestroyDefault
  | DestroyRecursive
  | DestroyRecursiveClones
  | DestroyDeferDeletion
  | DestroyForceUmount
deriving DecidableEq

/-- The struct `Dataset` of zfs.go; a nil `datasetImpl` is `none`. -/
structure Dataset where
  datasetImpl : Option gozfs.Dataset
  Name : String
  Mountpoint : String
  Hostname : String
deriving DecidableEq

/-- The type `DestroyFlag int` of zfs.go. -/
abbrev DestroyFlag := Int

/-- The constant `DestroyRecursively DestroyFlag = 2`. -/
def DestroyRecursively : DestroyFlag := 2

/-- The constant `HostEnvVar = "ZFS_HOST"`. -/
def HostEnvVar : String := "ZFS_HOST"

/-- Go `fs.FileMode` (a `uint32`); only bitwise or is applied to it. -/
abbrev FileMode := Nat

/-- A Go `map[string]string`, passed through verbatim. -/
abbrev Properties := List (String × String)

/-- The process environment. -/
abbrev Environ := List (String × String)

/-- Value of a variable in the environment (`os.Getenv`/`os.LookupEnv`). -/
def Getenv (env : Environ) (key : String) : Option String :=
  match env.find? (fun p => p.1 == key) with
  | some p => some p.2
  | none => none

/-! ## Trace of calls -/

/-- The calls the package makes, in the order it makes them.  `callGetDataset`
marks an invocation of the method `GetDataset` of this package; every other
event is a call into a library. -/
inductive Event where
  | callGetDataset (name hostname : String)
  | klog (msg : String) (keysAndValues : List String)
  | lock
  | unlock
  | setenv (key value : String)
  | gozfsGetDataset (name : String)
  | gozfsCreateFilesystem (name : String) (properties : Properties)
  | gozfsDestroy (d : gozfs.Dataset) (flag : gozfs.DestroyFlag)
  | lookPath (file : String)
  | combinedOutput (path : String) (args : List String)
  | lstat (name : String)
  | chmod (name : String) (mode : FileMode)
deriving DecidableEq

/-! ## The outside world -/

/-- One transition function per library call.  The subsystem and the helper are
run as child processes, so they see the environment. -/
structure Sys (W : Type) where
  /-- Go `os.Setenv key value`: `some err` when it fails. -/
  Setenv : W → String → String → Option GoError × W
  /-- Go `gozfs.GetDataset name`. -/
  GetDataset : W → Environ → String → Except GoError gozfs.Dataset × W
  /-- Go `gozfs.CreateFilesystem name properties`. -/
  CreateFilesystem : W → Environ → String → Properties → Except GoError gozfs.Dataset × W
  /-- Go `(*gozfs.Dataset).Destroy flag`. -/
  Destroy : W → Environ → gozfs.Dataset → gozfs.DestroyFlag → Option GoError × W
  /-- Go `exec.LookPath file`: the resolved path, `""` when the file is not found. -/
  LookPath : W → Environ → String → String × W
  /-- Go `(*exec.Cmd).CombinedOutput`: the captured output and the error. -/
  CombinedOutput : W → Environ → String → List String → (String × Option GoError) × W
  /-- Go `os.Lstat name`, reduced to the mode of the file. -/
  Lstat : W → String → Except GoError FileMode × W
  /-- Go `os.Chmod name mode`. -/
  Chmod : W → String → FileMode → Option GoError × W

/-- State of the process. -/
structure State (W : Type) where
  world : W
  env : Environ
  /-- Whether `globalLock` is held. -/
  locked : Bool
  trace : List Event
deriving DecidableEq

variable {W : Type}

/-- Record a call. -/
def State.emit (s : State W) (e : Event) : State W :=
  { s with trace := s.trace ++ [e] }

/-- Go `globalLock.Lock()`: `sync.Mutex` is not reentrant, locking a held mutex
blocks for ever. -/
def Lock (s : State W) : Option (State W) :=
  if s.locked then none else some { s with locked := true, trace := s.trace ++ [Event.lock] }

/-- Go `globalLock.Unlock()`: unlocking a free mutex is a fatal error. -/
def Unlock (s : State W) : Option (State W) :=
  if s.locked then some { s with locked := false, trace := s.trace ++ [Event.unlock] } else none

/-- Go `klog.V(3).Info` / `klog.V(3).InfoS`. -/
def klog (msg : String) (keysAndValues : List String) (s : State W) : State W :=
  s.emit (Event.klog msg keysAndValues)

/-- The environment in which `key` has the value `value`. -/
def setVar (env : Environ) (key value : String) : Environ :=
  (key, value) :: env.filter (fun p => !(p.1 == key))

/-- Go `os.Setenv key value`: on success the variable has the new value. -/
def osSetenv (sys : Sys W) (key value : String) (s : State W) : Option GoError × State W :=
  match sys.Setenv s.world key value with
  | (some err, w) => (some err, { s with world := w, trace := s.trace ++ [Event.setenv key value] })
  | (none, w) =>
    (none, { s with world := w
                    env := setVar s.env key value
                    trace := s.trace ++ [Event.setenv key value] })

/-- Go `gozfs.GetDataset name`. -/
def gozfsGetDataset (sys : Sys W) (name : String) (s : State W) :
    Except GoError gozfs.Dataset × State W :=
  let r := sys.GetDataset s.world s.env name
  (r.1, { s with world := r.2, trace := s.trace ++ [Event.gozfsGetDataset name] })

/-- Go `gozfs.CreateFilesystem name properties`. -/
def gozfsCreateFilesystem (sys : Sys W) (name : String) (properties : Properties) (s : State W) :
    Except GoError gozfs.Dataset × State W :=
  let r := sys.CreateFilesystem s.world s.env name properties
  (r.1, { s with world := r.2, trace := s.trace ++ [Event.gozfsCreateFilesystem name properties] })

/-- Go `d.Destroy(flag)` on a non-nil `*gozfs.Dataset`. -/
def gozfsDestroy (sys : Sys W) (d : gozfs.Dataset) (flag : gozfs.DestroyFlag) (s : State W) :
    Option GoError × State W :=
  let r := sys.Destroy s.world s.env d flag
  (r.1, { s with world := r.2, trace := s.trace ++ [Event.gozfsDestroy d flag] })

/-- The fields of `exec.Cmd` that are used. -/
structure Cmd where
  Path : String
  Args : List String
deriving DecidableEq

/-- Go `exec.Command name arg...`: a name without a path separator is resolved
with `LookPath`; `Path` is the resolved path when there is one, else `name`. -/
def execCommand (sys : Sys W) (name : String) (arg : List String) (s : State W) : Cmd × State W :=
  let r := sys.LookPath s.world s.env name
  ({ Path := if r.1 = "" then name else r.1, Args := name :: arg },
   { s with world := r.2, trace := s.trace ++ [Event.lookPath name] })

/-- Go `filepath.IsAbs` (Unix): the path starts with a slash. -/
def filepathIsAbs (path : String) : Bool :=
  match path.data with
  | c :: _ => c == '/'
  | [] => false

/-- Go `cmd.CombinedOutput()`. -/
def cmdCombinedOutput (sys : Sys W) (cmd : Cmd) (s : State W) :
    (String × Option GoError) × State W :=
  let r := sys.CombinedOutput s.world s.env cmd.Path cmd.Args
  (r.1, { s with world := r.2, trace := s.trace ++ [Event.combinedOutput cmd.Path cmd.Args] })

/-- Go `os.Lstat name` followed by `st.Mode()`. -/
def osLstat (sys : Sys W) (name : String) (s : State W) : Except GoError FileMode × State W :=
  let r := sys.Lstat s.world name
  (r.1, { s with world := r.2, trace := s.trace ++ [Event.lstat name] })

/-- Go `os.Chmod name mode`. -/
def osChmod (sys : Sys W) (name : String) (mode : FileMode) (s : State W) :
    Option GoError × State W :=
  let r := sys.Chmod s.world name mode
  (r.1, { s with world := r.2, trace := s.trace ++ [Event.chmod name mode] })

/-! ## The package -/

/-- Go `setEnvironmentVars`. -/
def setEnvironmentVars (sys : Sys W) (hostName : String) (s : State W) : Option GoError × State W :=
  osSetenv sys HostEnvVar hostName s

/-- Go `validateDataset`: `none` is a nil error. -/
def validateDataset (dataset : Dataset) : Option GoError :=
  if dataset.Name = "" then
    some (GoError.new "undefined dataset name")
  else if dataset.Hostname = "" then
    some (GoError.new ("required hostname parameter not given for dataset '" ++ dataset.Name ++ "'"))
  else
    none

/-- Body of `GetDataset` between `Lock` and the deferred `Unlock`. -/
def GetDataset.body (sys : Sys W) (name hostname : String) (s : State W) :
    (Option Dataset × Option GoError) × State W :=
  match setEnvironmentVars sys hostname s with
  | (some err, s1) => ((none, some err), s1)
  | (none, s1) =>
    match gozfsGetDataset sys name s1 with
    | (Except.error err, s2) => ((none, some err), s2)
    | (Except.ok dataset, s2) =>
      ((some { datasetImpl := some dataset
               Name := dataset.Name
               Mountpoint := dataset.Mountpoint
               Hostname := hostname }, none), s2)

/-- Go `(*zfsImpl).GetDataset`.  The first event marks the invocation. -/
def GetDataset (sys : Sys W) (name hostname : String) (s : State W) :
    Option ((Option Dataset × Option GoError) × State W) :=
  match Lock (klog "acquiring lock..." [] (s.emit (Event.callGetDataset name hostname))) with
  | none => none
  | some s1 =>
    match GetDataset.body sys name hostname s1 with
    | (r, s2) =>
      match Unlock s2 with
      | none => none
      | some s3 => some (r, s3)

/-- Body of `CreateDataset` between `Lock` and the deferred `Unlock`. -/
def CreateDataset.body (sys : Sys W) (name hostname : String) (properties : Properties)
    (s : State W) : (Option Dataset × Option GoError) × State W :=
  match setEnvironmentVars sys hostname s with
  | (some err, s1) => ((none, some err), s1)
  | (none, s1) =>
    match gozfsCreateFilesystem sys name properties
        (klog "creating dataset" ["name", name, "host", hostname] s1) with
    | (Except.error err, s2) => ((none, some err), s2)
    | (Except.ok dataset, s2) =>
      ((some { datasetImpl := some dataset
               Name := dataset.Name
               Mountpoint := dataset.Mountpoint
               Hostname := hostname }, none), s2)

/-- Go `(*zfsImpl).CreateDataset`. -/
def CreateDataset (sys : Sys W) (name hostname : String) (properties : Properties)
    (s : State W) : Option ((Option Dataset × Option GoError) × State W) :=
  match Lock (klog "acquiring lock..." [] s) with
  | none => none
  | some s1 =>
    match CreateDataset.body sys name hostname properties s1 with
    | (r, s2) =>
      match Unlock s2 with
      | none => none
      | some s3 => some (r, s3)

/-- Lines 94-108 of `DestroyDataset`: the switch on the flag and the locked
destructive call.  `dataset.datasetImpl.Destroy` on a nil handle panics. -/
def DestroyDataset.destroy (sys : Sys W) (dataset : Dataset) (flag : DestroyFlag) (s : State W) :
    Option ((Option GoError × Dataset) × State W) :=
  if flag = DestroyRecursively then
    match Lock (klog "acquiring lock..." [] s) with
    | none => none
    | some s1 =>
      match setEnvironmentVars sys dataset.Hostname s1 with
      | (some err, s2) =>
        match Unlock s2 with
        | none => none
        | some s3 => some ((some err, dataset), s3)
      | (none, s2) =>
        match dataset.datasetImpl with
        -- a nil handle: `Destroy` panics on its receiver
        | none => none
        | some impl =>
          match gozfsDestroy sys impl gozfs.DestroyFlag.DestroyRecursive s2 with
          | (r, s3) =>
            match Unlock s3 with
            | none => none
            | some s4 => some ((r, dataset), s4)
  else
    some ((some (GoError.new ("programmer error: flag not implemented: " ++ toString flag)),
           dataset), s)

/-- Go `(*zfsImpl).DestroyDataset`.  The entity is passed by pointer and may be
updated, so it is returned with the error. -/
def DestroyDataset (sys : Sys W) (dataset : Dataset) (flag : DestroyFlag) (s : State W) :
    Option ((Option GoError × Dataset) × State W) :=
  match validateDataset dataset with
  | some err => some ((some err, dataset), s)
  | none =>
    match dataset.datasetImpl with
    | none =>
      match GetDataset sys dataset.Name dataset.Hostname s with
      | none => none
      | some ((_, some err), s1) => some ((some err, dataset), s1)
      -- a nil `ds` with a nil error: `ds.datasetImpl` panics
      | some ((none, none), _) => none
      | some ((some ds, none), s1) =>
        DestroyDataset.destroy sys { dataset with datasetImpl := ds.datasetImpl } flag s1
    | some _ => DestroyDataset.destroy sys dataset flag s

/-- Body of `SetPermissions` between `Lock` and the deferred `Unlock`. -/
def SetPermissions.body (sys : Sys W) (dataset : Dataset) (uid gid perm : String) (s : State W) :
    Option GoError × State W :=
  match setEnvironmentVars sys dataset.Hostname s with
  | (some err, s1) => (some err, s1)
  | (none, s1) =>
    match execCommand sys "update-permissions" [dataset.Mountpoint, uid, gid, perm] s1 with
    | (cmd, s2) =>
      if filepathIsAbs cmd.Path then
        match cmdCombinedOutput sys cmd s2 with
        | ((out, some err), s3) =>
          (some (GoError.wrap ("could not update permissions on '" ++ dataset.Hostname ++ "': "
                                ++ err.Error ++ ": " ++ out) err), s3)
        | ((_, none), s3) => (none, s3)
      else
        match osLstat sys dataset.Mountpoint s2 with
        | (Except.error err, s3) => (some err, s3)
        | (Except.ok st, s3) =>
          match osChmod sys dataset.Mountpoint (st ||| 0o020) s3 with
          | (some err, s4) => (some err, s4)
          | (none, s4) => (none, s4)

/-- Go `(*zfsImpl).SetPermissions`. -/
def SetPermissions (sys : Sys W) (dataset : Dataset) (uid gid perm : String) (s : State W) :
    Option (Option GoError × State W) :=
  match validateDataset dataset with
  | some err => some (some err, s)
  | none =>
    if dataset.Mountpoint = "" then
      some (some (GoError.new ("undefined mountpoint for dataset: " ++ dataset.Name)), s)
    else
      match Lock s with
      | none => none
      | some s1 =>
        match SetPermissions.body sys dataset uid gid perm s1 with
        | (r, s2) =>
          match Unlock s2 with
          | none => none
          | some s3 => some (r, s3)

/-! ## Observations on traces -/

/-- An invocation of this package's `GetDataset`. -/
def Event.isLookup : Event → Bool
  | Event.callGetDataset _ _ => true
  | _ => false

/-- The destructive call `(*gozfs.Dataset).Destroy`. -/
def Event.isDestroy : Event → Bool
  | Event.gozfsDestroy _ _ => true
  | _ => false

/-- The call `gozfs.GetDataset`. -/
def Event.isGozfsGet : Event → Bool
  | Event.gozfsGetDataset _ => true
  | _ => false

/-- Trace of a `GetDataset` call whose `os.Setenv` fails. -/
def traceLookupAborted (name hostname : String) : List Event :=
  [Event.callGetDataset name hostname, Event.klog "acquiring lock..." [], Event.lock,
   Event.setenv HostEnvVar hostname, Event.unlock]

/-- Trace of a `GetDataset` call that reaches the subsystem. -/
def traceLookup (name hostname : String) : List Event :=
  [Event.callGetDataset name hostname, Event.klog "acquiring lock..." [], Event.lock,
   Event.setenv HostEnvVar hostname, Event.gozfsGetDataset name, Event.unlock]

/-- Trace of lines 102-108 of `DestroyDataset` when `os.Setenv` fails. -/
def traceDestroyAborted (hostname : String) : List Event :=
  [Event.klog "acquiring lock..." [], Event.lock, Event.setenv HostEnvVar hostname, Event.unlock]

/-- Trace of lines 102-108 of `DestroyDataset` when the destructive call is made. -/
def traceDestroy (hostname : String) (impl : gozfs.Dataset) : List Event :=
  [Event.klog "acquiring lock..." [], Event.lock, Event.setenv HostEnvVar hostname,
   Event.gozfsDestroy impl gozfs.DestroyFlag.DestroyRecursive, Event.unlock]

/-- The events that precede the first destructive call. -/
def beforeDestroy (evs : List Event) : List Event :=
  evs.takeWhile (fun e => !e.isDestroy)

/-- The `Lock`/`Unlock` events of a trace, in order. -/
def lockEvents (evs : List Event) : List Event :=
  evs.filter (fun e => e == Event.lock || e == Event.unlock)

/-- Replays the lock events of a trace on a mutex that is held or free: the
final state of the mutex, or `none` when the trace locks a held mutex or
unlocks a free one. -/
def replayLock : Bool → List Event → Option Bool
  | held, [] => some held
  | held, Event.lock :: es => if held then none else replayLock true es
  | held, Event.unlock :: es => if held then replayLock false es else none
  | held, _ :: es => replayLock held es

/-- The message `msg` contains `sub` as a contiguous substring. -/
def Contains (msg sub : String) : Prop :=
  sub.data <:+: msg.data

instance (msg sub : String) : Decidable (Contains msg sub) :=
  inferInstanceAs (Decidable (sub.data <:+: msg.data))

/-- The error `e` is one that a library call returned: `os.Setenv`, one of the
three go-zfs calls, `os.Lstat` or `os.Chmod`. -/
inductive FromLibrary (sys : Sys W) (e : GoError) : Prop where
  | setenv (w : W) (key value : String) (h : (sys.Setenv w key value).1 = some e)
  | getDataset (w : W) (env : Environ) (name : String)
      (h : (sys.GetDataset w env name).1 = Except.error e)
  | createFilesystem (w : W) (env : Environ) (name : String) (properties : Properties)
      (h : (sys.CreateFilesystem w env name properties).1 = Except.error e)
  | destroy (w : W) (env : Environ) (d : gozfs.Dataset) (flag : gozfs.DestroyFlag)
      (h : (sys.Destroy w env d flag).1 = some e)
  | lstat (w : W) (name : String) (h : (sys.Lstat w name).1 = Except.error e)
  | chmod (w : W) (name : String) (mode : FileMode) (h : (sys.Chmod w name mode).1 = some e)

/-! ## Two concurrent `CreateDataset` calls

Each call is cut at its four shared-state actions (`Lock`, `os.Setenv`,
`gozfs.CreateFilesystem`, the deferred `Unlock`); a scheduler picks which call
moves next.  A call that is blocked on the mutex does not move. -/

/-- The arguments of a `CreateDataset` call. -/
structure Call where
  name : String
  hostname : String
  properties : Properties
deriving DecidableEq

/-- Where a `CreateDataset` call stands. -/
inductive Pc where
  /-- Before `globalLock.Lock()`. -/
  | start
  /-- Lock held, before `setEnvironmentVars`. -/
  | locked
  /-- Selector set, before `gozfs.CreateFilesystem`. -/
  | create
  /-- Result computed, the deferred `Unlock` is pending. -/
  | unlock (r : Option Dataset × Option GoError)
  /-- Returned. -/
  | done (r : Option Dataset × Option GoError)
deriving DecidableEq

/-- One action of a `CreateDataset` call; `none` when the call cannot move
(blocked on the mutex, or returned). -/
def Call.step (sys : Sys W) (c : Call) : Pc → State W → Option (Pc × State W)
  | Pc.start, s =>
    match Lock (klog "acquiring lock..." [] s) with
    | none => none
    | some s1 => some (Pc.locked, s1)
  | Pc.locked, s =>
    match setEnvironmentVars sys c.hostname s with
    | (some err, s1) => some (Pc.unlock (none, some err), s1)
    | (none, s1) => some (Pc.create, s1)
  | Pc.create, s =>
    match gozfsCreateFilesystem sys c.name c.properties
        (klog "creating dataset" ["name", c.name, "host", c.hostname] s) with
    | (Except.error err, s1) => some (Pc.unlock (none, some err), s1)
    | (Except.ok dataset, s1) =>
      some (Pc.unlock (some { datasetImpl := some dataset
                              Name := dataset.Name
                              Mountpoint := dataset.Mountpoint
                              Hostname := c.hostname }, none), s1)
  | Pc.unlock r, s =>
    match Unlock s with
    | none => none
    | some s1 => some (Pc.done r, s1)
  | Pc.done _, _ => none

/-- The two calls. -/
inductive Tid where
  | A
  | B
deriving DecidableEq

/-- The process running the two calls.  `observed` records, for each remote
create that was executed, the call that issued it and the value `ZFS_HOST` had
at that moment. -/
structure Conc (W : Type) where
  shared : State W
  pcA : Pc
  pcB : Pc
  observed : List (Tid × Option String)

/-- Both calls about to start. -/
def Conc.init (s : State W) : Conc W :=
  { shared := s, pcA := Pc.start, pcB := Pc.start, observed := [] }

/-- What a step of a call standing at `pc` adds to `observed`. -/
def observe (t : Tid) (pc : Pc) (s : State W) : List (Tid × Option String) :=
  match pc with
  | Pc.create => [(t, Getenv s.env HostEnvVar)]
  | _ => []

/-- The scheduler lets call `t` move. -/
def Conc.step (sys : Sys W) (a b : Call) (t : Tid) (c : Conc W) : Conc W :=
  match t with
  | Tid.A =>
    match a.step sys c.pcA c.shared with
    | none => c
    | some (pc, s) =>
      { c with shared := s, pcA := pc, observed := c.observed ++ observe Tid.A c.pcA c.shared }
  | Tid.B =>
    match b.step sys c.pcB c.shared with
    | none => c
    | some (pc, s) =>
      { c with shared := s, pcB := pc, observed := c.observed ++ observe Tid.B c.pcB c.shared }

/-- Runs a schedule. -/
def Conc.exec (sys : Sys W) (a b : Call) : List Tid → Conc W → Conc W
  | [], c => c
  | t :: ts, c => Conc.exec sys a b ts (Conc.step sys a b t c)

/-- The host a call targets. -/
def hostOf (a b : Call) : Tid → String
  | Tid.A => a.hostname
  | Tid.B => b.hostname

/-- The call holds `globalLock`: it is past `Lock` and before `Unlock`. -/
def Pc.holds : Pc → Bool
  | Pc.locked => true
  | Pc.create => true
  | Pc.unlock _ => true
  | _ => false

/-- Invariant of the two-call process: the mutex is held exactly when one call
is inside its critical section, at most one call is, a call about to run the
remote create sees its own host in `ZFS_HOST`, and so did every remote create
executed so far. -/
def Conc.Inv (a b : Call) (c : Conc W) : Prop :=
  c.shared.locked = (c.pcA.holds || c.pcB.holds) ∧
  (c.pcA.holds = false ∨ c.pcB.holds = false) ∧
  (c.pcA = Pc.create → Getenv c.shared.env HostEnvVar = some a.hostname) ∧
  (c.pcB = Pc.create → Getenv c.shared.env HostEnvVar = some b.hostname) ∧
  ∀ p ∈ c.observed, p.2 = some (hostOf a b p.1)

/-! ## A small in-memory world

Used to run the package on concrete inputs. -/

/-- Datasets per host, file modes of the local filesystem, and the path of the
`update-permissions` helper (`""` when it is not installed). -/
structure MemWorld where
  datasets : List (String × gozfs.Dataset)
  modes : List (String × FileMode)
  helper : String
  helperFails : Bool
deriving DecidableEq

/-- The dataset `name` of host `host`, if any. -/
def MemWorld.find (w : MemWorld) (host : Option String) (name : String) : Option gozfs.Dataset :=
  match w.datasets.find? (fun p => some p.1 == host && p.2.Name == name) with
  | some p => some p.2
  | none => none

/-- The in-memory world: `Setenv` rejects a value with a NUL byte, the
subsystem acts on the datasets of the host named by `ZFS_HOST`. -/
def memSys : Sys MemWorld where
  Setenv := fun w _ value =>
    if value.data.contains (Char.ofNat 0) then
      (some (GoError.new "setenv: invalid argument"), w)
    else (none, w)
  GetDataset := fun w env name =>
    match w.find (Getenv env HostEnvVar) name with
    | some d => (Except.ok d, w)
    | none => (Except.error (GoError.new "dataset does not exist"), w)
  CreateFilesystem := fun w env name _ =>
    match w.find (Getenv env HostEnvVar) name, Getenv env HostEnvVar with
    | none, some host =>
      let d : gozfs.Dataset := { Name := name, Mountpoint := "/" ++ name }
      (Except.ok d, { w with datasets := (host, d) :: w.datasets })
    | none, none => (Except.error (GoError.new "no host selected"), w)
    | some _, _ => (Except.error (GoError.new "dataset already exists"), w)
  Destroy := fun w env d _ =>
    match w.find (Getenv env HostEnvVar) d.Name with
    | some _ =>
      (none, { w with datasets :=
        w.datasets.filter (fun p => !(some p.1 == Getenv env HostEnvVar && p.2.Name == d.Name)) })
    | none => (some (GoError.new "dataset does not exist"), w)
  LookPath := fun w _ _ => (w.helper, w)
  CombinedOutput := fun w _ _ _ =>
    if w.helperFails then (("chown failed", some (GoError.new "exit status 1")), w)
    else (("", none), w)
  Lstat := fun w name =>
    match w.modes.find? (fun p => p.1 == name) with
    | some p => (Except.ok p.2, w)
    | none => (Except.error (GoError.new "lstat: no such file or directory"), w)
  Chmod := fun w name mode =>
    match w.modes.find? (fun p => p.1 == name) with
    | some _ => (none, { w with modes := (name, mode) :: w.modes.filter (fun p => !(p.1 == name)) })
    | none => (some (GoError.new "chmod: no such file or directory"), w)

/-- A world with one dataset on `node-a`, mounted with mode `0644`, and no helper. -/
def memWorld : MemWorld where
  datasets := [("node-a", { Name := "tank/vol1", Mountpoint := "/export/vol1" })]
  modes := [("/export/vol1", 0o644)]
  helper := ""
  helperFails := false

/-- Initial state of the process over `memWorld`: lock free, nothing traced. -/
def memState : State MemWorld where
  world := memWorld
  env := []
  locked := false
  trace := []

/-! ## Outcomes of the operations

One lemma per path through each function: what it returns and the state it
leaves, given what the library calls on that path answer. -/

theorem Getenv_setVar (env : Environ) (key value : String) :
    Getenv (setVar env key value) key = some value := by
  simp [Getenv, setVar]

theorem GetDataset_setenv_error (sys : Sys W) (name hostname : String) (s : State W)
    (hfree : s.locked = false) (e : GoError) (w1 : W)
    (h1 : sys.Setenv s.world HostEnvVar hostname = (some e, w1)) :
    GetDataset sys name hostname s = some ((none, some e),
      { world := w1, env := s.env, locked := false,
        trace := s.trace ++ [Event.callGetDataset name hostname, Event.klog "acquiring lock..." [],
          Event.lock, Event.setenv HostEnvVar hostname, Event.unlock] }) := by
  simp [GetDataset, GetDataset.body, Lock, Unlock, klog, State.emit, setEnvironmentVars,
    osSetenv, hfree, h1]

theorem GetDataset_lookup_error (sys : Sys W) (name hostname : String) (s : State W)
    (hfree : s.locked = false) (e : GoError) (w1 w2 : W)
    (h1 : sys.Setenv s.world HostEnvVar hostname = (none, w1))
    (h2 : sys.GetDataset w1 (setVar s.env HostEnvVar hostname) name = (Except.error e, w2)) :
    GetDataset sys name hostname s = some ((none, some e),
      { world := w2, env := setVar s.env HostEnvVar hostname, locked := false,
        trace := s.trace ++ [Event.callGetDataset name hostname, Event.klog "acquiring lock..." [],
          Event.lock, Event.setenv HostEnvVar hostname, Event.gozfsGetDataset name,
          Event.unlock] }) := by
  simp [GetDataset, GetDataset.body, Lock, Unlock, klog, State.emit, setEnvironmentVars,
    osSetenv, gozfsGetDataset, hfree, h1, h2]

theorem GetDataset_ok (sys : Sys W) (name hostname : String) (s : State W)
    (hfree : s.locked = false) (r : gozfs.Dataset) (w1 w2 : W)
    (h1 : sys.Setenv s.world HostEnvVar hostname = (none, w1))
    (h2 : sys.GetDataset w1 (setVar s.env HostEnvVar hostname) name = (Except.ok r, w2)) :
    GetDataset sys name hostname s =
      some ((some { datasetImpl := some r, Name := r.Name, Mountpoint := r.Mountpoint,
                    Hostname := hostname }, none),
      { world := w2, env := setVar s.env HostEnvVar hostname, locked := false,
        trace := s.trace ++ [Event.callGetDataset name hostname, Event.klog "acquiring lock..." [],
          Event.lock, Event.setenv HostEnvVar hostname, Event.gozfsGetDataset name,
          Event.unlock] }) := by
  simp [GetDataset, GetDataset.body, Lock, Unlock, klog, State.emit, setEnvironmentVars,
    osSetenv, gozfsGetDataset, hfree, h1, h2]

theorem CreateDataset_setenv_error (sys : Sys W) (name hostname : String)
    (properties : Properties) (s : State W)
    (hfree : s.locked = false) (e : GoError) (w1 : W)
    (h1 : sys.Setenv s.world HostEnvVar hostname = (some e, w1)) :
    CreateDataset sys name hostname properties s = some ((none, some e),
      { world := w1, env := s.env, locked := false,
        trace := s.trace ++ [Event.klog "acquiring lock..." [],
          Event.lock, Event.setenv HostEnvVar hostname, Event.unlock] }) := by
  simp [CreateDataset, CreateDataset.body, Lock, Unlock, klog, State.emit, setEnvironmentVars,
    osSetenv, hfree, h1]

theorem CreateDataset_create_error (sys : Sys W) (name hostname : String)
    (properties : Properties) (s : State W)
    (hfree : s.locked = false) (e : GoError) (w1 w2 : W)
    (h1 : sys.Setenv s.world HostEnvVar hostname = (none, w1))
    (h2 : sys.CreateFilesystem w1 (setVar s.env HostEnvVar hostname) name properties
            = (Except.error e, w2)) :
    CreateDataset sys name hostname properties s = some ((none, some e),
      { world := w2, env := setVar s.env HostEnvVar hostname, locked := false,
        trace := s.trace ++ [Event.klog "acquiring lock..." [],
          Event.lock, Event.setenv HostEnvVar hostname,
          Event.klog "creating dataset" ["name", name, "host", hostname],
          Event.gozfsCreateFilesystem name properties, Event.unlock] }) := by
  simp [CreateDataset, CreateDataset.body, Lock, Unlock, klog, State.emit, setEnvironmentVars,
    osSetenv, gozfsCreateFilesystem, hfree, h1, h2]

theorem CreateDataset_ok (sys : Sys W) (name hostname : String)
    (properties : Properties) (s : State W)
    (hfree : s.locked = false) (r : gozfs.Dataset) (w1 w2 : W)
    (h1 : sys.Setenv s.world HostEnvVar hostname = (none, w1))
    (h2 : sys.CreateFilesystem w1 (setVar s.env HostEnvVar hostname) name properties
            = (Except.ok r, w2)) :
    CreateDataset sys name hostname properties s =
      some ((some { datasetImpl := some r, Name := r.Name, Mountpoint := r.Mountpoint,
                    Hostname := hostname }, none),
      { world := w2, env := setVar s.env HostEnvVar hostname, locked := false,
        trace := s.trace ++ [Event.klog "acquiring lock..." [],
          Event.lock, Event.setenv HostEnvVar hostname,
          Event.klog "creating dataset" ["name", name, "host", hostname],
          Event.gozfsCreateFilesystem name properties, Event.unlock] }) := by
  simp [CreateDataset, CreateDataset.body, Lock, Unlock, klog, State.emit, setEnvironmentVars,
    osSetenv, gozfsCreateFilesystem, hfree, h1, h2]

theorem destroy_flag_error (sys : Sys W) (dataset : Dataset) (flag : DestroyFlag) (s : State W)
    (hflag : flag ≠ DestroyRecursively) :
    DestroyDataset.destroy sys dataset flag s =
      some ((some (GoError.new ("programmer error: flag not implemented: " ++ toString flag)),
             dataset), s) := by
  simp [DestroyDataset.destroy, hflag]

theorem destroy_setenv_error (sys : Sys W) (dataset : Dataset) (s : State W)
    (hfree : s.locked = false) (e : GoError) (w1 : W)
    (h1 : sys.Setenv s.world HostEnvVar dataset.Hostname = (some e, w1)) :
    DestroyDataset.destroy sys dataset DestroyRecursively s = some ((some e, dataset),
      { world := w1, env := s.env, locked := false,
        trace := s.trace ++ [Event.klog "acquiring lock..." [],
          Event.lock, Event.setenv HostEnvVar dataset.Hostname, Event.unlock] }) := by
  simp [DestroyDataset.destroy, Lock, Unlock, klog, State.emit, setEnvironmentVars,
    osSetenv, hfree, h1]

theorem destroy_call (sys : Sys W) (dataset : Dataset) (impl : gozfs.Dataset) (s : State W)
    (himpl : dataset.datasetImpl = some impl)
    (hfree : s.locked = false) (w1 : W)
    (h1 : sys.Setenv s.world HostEnvVar dataset.Hostname = (none, w1)) :
    DestroyDataset.destroy sys dataset DestroyRecursively s =
      some (((sys.Destroy w1 (setVar s.env HostEnvVar dataset.Hostname) impl
                gozfs.DestroyFlag.DestroyRecursive).1, dataset),
      { world := (sys.Destroy w1 (setVar s.env HostEnvVar dataset.Hostname) impl
                gozfs.DestroyFlag.DestroyRecursive).2,
        env := setVar s.env HostEnvVar dataset.Hostname, locked := false,
        trace := s.trace ++ [Event.klog "acquiring lock..." [],
          Event.lock, Event.setenv HostEnvVar dataset.Hostname,
          Event.gozfsDestroy impl gozfs.DestroyFlag.DestroyRecursive, Event.unlock] }) := by
  simp [DestroyDataset.destroy, Lock, Unlock, klog, State.emit, setEnvironmentVars,
    osSetenv, gozfsDestroy, hfree, h1, himpl]

theorem DestroyDataset_invalid (sys : Sys W) (dataset : Dataset) (flag : DestroyFlag)
    (s : State W) (e : GoError) (hv : validateDataset dataset = some e) :
    DestroyDataset sys dataset flag s = some ((some e, dataset), s) := by
  simp [DestroyDataset, hv]

theorem DestroyDataset_handle (sys : Sys W) (dataset : Dataset) (flag : DestroyFlag)
    (s : State W) (impl : gozfs.Dataset) (hv : validateDataset dataset = none)
    (himpl : dataset.datasetImpl = some impl) :
    DestroyDataset sys dataset flag s = DestroyDataset.destroy sys dataset flag s := by
  simp [DestroyDataset, hv, himpl]

theorem DestroyDataset_lookup_error (sys : Sys W) (dataset : Dataset) (flag : DestroyFlag)
    (s s1 : State W) (e : GoError) (hv : validateDataset dataset = none)
    (himpl : dataset.datasetImpl = none)
    (hget : GetDataset sys dataset.Name dataset.Hostname s = some ((none, some e), s1)) :
    DestroyDataset sys dataset flag s = some ((some e, dataset), s1) := by
  simp [DestroyDataset, hv, himpl, hget]

theorem DestroyDataset_lookup_ok (sys : Sys W) (dataset : Dataset) (flag : DestroyFlag)
    (s s1 : State W) (ds : Dataset) (hv : validateDataset dataset = none)
    (himpl : dataset.datasetImpl = none)
    (hget : GetDataset sys dataset.Name dataset.Hostname s = some ((some ds, none), s1)) :
    DestroyDataset sys dataset flag s =
      DestroyDataset.destroy sys { dataset with datasetImpl := ds.datasetImpl } flag s1 := by
  simp [DestroyDataset, hv, himpl, hget]

theorem validateDataset_ok (dataset : Dataset) (hname : dataset.Name ≠ "")
    (hhost : dataset.Hostname ≠ "") : validateDataset dataset = none := by
  simp [validateDataset, hname, hhost]

theorem validateDataset_error (dataset : Dataset)
    (h : dataset.Name = "" ∨ dataset.Hostname = "") :
    ∃ e, validateDataset dataset = some e := by
  unfold validateDataset
  by_cases hn : dataset.Name = ""
  · exact ⟨_, if_pos hn⟩
  · have hh : dataset.Hostname = "" := h.resolve_left hn
    exact ⟨_, by rw [if_neg hn, if_pos hh]⟩

theorem SetPermissions_invalid (sys : Sys W) (dataset : Dataset) (uid gid perm : String)
    (s : State W) (e : GoError) (hv : validateDataset dataset = some e) :
    SetPermissions sys dataset uid gid perm s = some (some e, s) := by
  simp [SetPermissions, hv]

theorem SetPermissions_no_mountpoint (sys : Sys W) (dataset : Dataset) (uid gid perm : String)
    (s : State W) (hv : validateDataset dataset = none) (hmp : dataset.Mountpoint = "") :
    SetPermissions sys dataset uid gid perm s =
      some (some (GoError.new ("undefined mountpoint for dataset: " ++ dataset.Name)), s) := by
  simp [SetPermissions, hv, hmp]

theorem SetPermissions_setenv_error (sys : Sys W) (dataset : Dataset) (uid gid perm : String)
    (s : State W) (hv : validateDataset dataset = none) (hmp : dataset.Mountpoint ≠ "")
    (hfree : s.locked = false) (e : GoError) (w1 : W)
    (h1 : sys.Setenv s.world HostEnvVar dataset.Hostname = (some e, w1)) :
    SetPermissions sys dataset uid gid perm s = some (some e,
      { world := w1, env := s.env, locked := false,
        trace := s.trace ++ [Event.lock, Event.setenv HostEnvVar dataset.Hostname,
          Event.unlock] }) := by
  simp [SetPermissions, SetPermissions.body, Lock, Unlock, setEnvironmentVars, osSetenv,
    hv, hmp, hfree, h1]

theorem SetPermissions_helper (sys : Sys W) (dataset : Dataset) (uid gid perm : String)
    (s : State W) (hv : validateDataset dataset = none) (hmp : dataset.Mountpoint ≠ "")
    (hfree : s.locked = false) (w1 w2 w3 : W) (lp out : String) (r : Option GoError)
    (h1 : sys.Setenv s.world HostEnvVar dataset.Hostname = (none, w1))
    (h2 : sys.LookPath w1 (setVar s.env HostEnvVar dataset.Hostname) "update-permissions"
            = (lp, w2))
    (habs : filepathIsAbs (if lp = "" then "update-permissions" else lp) = true)
    (h3 : sys.CombinedOutput w2 (setVar s.env HostEnvVar dataset.Hostname)
            (if lp = "" then "update-permissions" else lp)
            ["update-permissions", dataset.Mountpoint, uid, gid, perm] = ((out, r), w3)) :
    SetPermissions sys dataset uid gid perm s =
      some (r.map (fun err => GoError.wrap ("could not update permissions on '"
              ++ dataset.Hostname ++ "': " ++ err.Error ++ ": " ++ out) err),
      { world := w3, env := setVar s.env HostEnvVar dataset.Hostname, locked := false,
        trace := s.trace ++ [Event.lock, Event.setenv HostEnvVar dataset.Hostname,
          Event.lookPath "update-permissions",
          Event.combinedOutput (if lp = "" then "update-permissions" else lp)
            ["update-permissions", dataset.Mountpoint, uid, gid, perm],
          Event.unlock] }) := by
  cases r <;>
  simp [SetPermissions, SetPermissions.body, Lock, Unlock, setEnvironmentVars, osSetenv,
    execCommand, cmdCombinedOutput, hv, hmp, hfree, h1, h2, h3, habs]

theorem SetPermissions_lstat_error (sys : Sys W) (dataset : Dataset) (uid gid perm : String)
    (s : State W) (hv : validateDataset dataset = none) (hmp : dataset.Mountpoint ≠ "")
    (hfree : s.locked = false) (w1 w2 w3 : W) (lp : String) (e : GoError)
    (h1 : sys.Setenv s.world HostEnvVar dataset.Hostname = (none, w1))
    (h2 : sys.LookPath w1 (setVar s.env HostEnvVar dataset.Hostname) "update-permissions"
            = (lp, w2))
    (habs : filepathIsAbs (if lp = "" then "update-permissions" else lp) = false)
    (h3 : sys.Lstat w2 dataset.Mountpoint = (Except.error e, w3)) :
    SetPermissions sys dataset uid gid perm s = some (some e,
      { world := w3, env := setVar s.env HostEnvVar dataset.Hostname, locked := false,
        trace := s.trace ++ [Event.lock, Event.setenv HostEnvVar dataset.Hostname,
          Event.lookPath "update-permissions", Event.lstat dataset.Mountpoint,
          Event.unlock] }) := by
  simp [SetPermissions, SetPermissions.body, Lock, Unlock, setEnvironmentVars, osSetenv,
    execCommand, osLstat, hv, hmp, hfree, h1, h2, h3, habs]

theorem SetPermissions_chmod (sys : Sys W) (dataset : Dataset) (uid gid perm : String)
    (s : State W) (hv : validateDataset dataset = none) (hmp : dataset.Mountpoint ≠ "")
    (hfree : s.locked = false) (w1 w2 w3 w4 : W) (lp : String) (m : FileMode)
    (r : Option GoError)
    (h1 : sys.Setenv s.world HostEnvVar dataset.Hostname = (none, w1))
    (h2 : sys.LookPath w1 (setVar s.env HostEnvVar dataset.Hostname) "update-permissions"
            = (lp, w2))
    (habs : filepathIsAbs (if lp = "" then "update-permissions" else lp) = false)
    (h3 : sys.Lstat w2 dataset.Mountpoint = (Except.ok m, w3))
    (h4 : sys.Chmod w3 dataset.Mountpoint (m ||| 0o020) = (r, w4)) :
    SetPermissions sys dataset uid gid perm s = some (r,
      { world := w4, env := setVar s.env HostEnvVar dataset.Hostname, locked := false,
        trace := s.trace ++ [Event.lock, Event.setenv HostEnvVar dataset.Hostname,
          Event.lookPath "update-permissions", Event.lstat dataset.Mountpoint,
          Event.chmod dataset.Mountpoint (m ||| 0o020), Event.unlock] }) := by
  cases r <;>
  simp [SetPermissions, SetPermissions.body, Lock, Unlock, setEnvironmentVars, osSetenv,
    execCommand, osLstat, osChmod, hv, hmp, hfree, h1, h2, h3, h4, habs]

/-- Every path of `DestroyDataset` from a free lock returns, with the lock free,
and its trace has one of eight shapes. -/
theorem DestroyDataset_shape (sys : Sys W) (dataset : Dataset) (flag : DestroyFlag)
    (s : State W) (hfree : s.locked = false) :
    ∃ r s' evs, DestroyDataset sys dataset flag s = some (r, s') ∧ s'.locked = false ∧
      s'.trace = s.trace ++ evs ∧
      ((validateDataset dataset ≠ none ∧ evs = []) ∨
       (validateDataset dataset = none ∧
        ((∃ impl, dataset.datasetImpl = some impl ∧
            ((flag ≠ DestroyRecursively ∧ evs = []) ∨
             (flag = DestroyRecursively ∧
               (evs = traceDestroyAborted dataset.Hostname ∨
                evs = traceDestroy dataset.Hostname impl)))) ∨
         (dataset.datasetImpl = none ∧
            (evs = traceLookupAborted dataset.Name dataset.Hostname ∨
             evs = traceLookup dataset.Name dataset.Hostname ∨
             (flag = DestroyRecursively ∧ ∃ ds,
               (evs = traceLookup dataset.Name dataset.Hostname
                        ++ traceDestroyAborted dataset.Hostname ∨
                evs = traceLookup dataset.Name dataset.Hostname
                        ++ traceDestroy dataset.Hostname ds))))))) := by
  rcases hv : validateDataset dataset with _ | e
  · rcases himpl : dataset.datasetImpl with _ | impl
    · -- implicit lookup
      rcases h1 : sys.Setenv s.world HostEnvVar dataset.Hostname with ⟨_ | e1, w1⟩
      · rcases h2 : sys.GetDataset w1 (setVar s.env HostEnvVar dataset.Hostname) dataset.Name
          with ⟨e2 | ds, w2⟩
        · rw [DestroyDataset_lookup_error sys dataset flag s _ e2 hv himpl
            (GetDataset_lookup_error sys _ _ s hfree e2 w1 w2 h1 h2)]
          exact ⟨_, _, _, rfl, rfl, rfl, Or.inr ⟨rfl, Or.inr ⟨rfl, Or.inr (Or.inl rfl)⟩⟩⟩
        · rw [DestroyDataset_lookup_ok sys dataset flag s _ _ hv himpl
            (GetDataset_ok sys _ _ s hfree ds w1 w2 h1 h2)]
          by_cases hflag : flag = DestroyRecursively
          · subst hflag
            rcases h3 : sys.Setenv w2 HostEnvVar dataset.Hostname with ⟨_ | e3, w3⟩
            · rw [destroy_call sys _ ds _ rfl rfl w3 h3]
              refine ⟨_, _, traceLookup dataset.Name dataset.Hostname
                ++ traceDestroy dataset.Hostname ds, rfl, rfl, ?_, ?_⟩
              · simp [traceLookup, traceDestroy]
              · exact Or.inr ⟨rfl, Or.inr ⟨rfl, Or.inr (Or.inr ⟨rfl, ds, Or.inr rfl⟩)⟩⟩
            · rw [destroy_setenv_error sys _ _ rfl e3 w3 h3]
              refine ⟨_, _, traceLookup dataset.Name dataset.Hostname
                ++ traceDestroyAborted dataset.Hostname, rfl, rfl, ?_, ?_⟩
              · simp [traceLookup, traceDestroyAborted]
              · exact Or.inr ⟨rfl, Or.inr ⟨rfl, Or.inr (Or.inr ⟨rfl, ds, Or.inl rfl⟩)⟩⟩
          · rw [destroy_flag_error sys _ flag _ hflag]
            exact ⟨_, _, _, rfl, rfl, rfl, Or.inr ⟨rfl, Or.inr ⟨rfl, Or.inr (Or.inl rfl)⟩⟩⟩
      · rw [DestroyDataset_lookup_error sys dataset flag s _ e1 hv himpl
          (GetDataset_setenv_error sys _ _ s hfree e1 w1 h1)]
        exact ⟨_, _, _, rfl, rfl, rfl, Or.inr ⟨rfl, Or.inr ⟨rfl, Or.inl rfl⟩⟩⟩
    · rw [DestroyDataset_handle sys dataset flag s impl hv himpl]
      by_cases hflag : flag = DestroyRecursively
      · subst hflag
        rcases h1 : sys.Setenv s.world HostEnvVar dataset.Hostname with ⟨_ | e1, w1⟩
        · rw [destroy_call sys dataset impl s himpl hfree w1 h1]
          exact ⟨_, _, _, rfl, rfl, rfl,
            Or.inr ⟨rfl, Or.inl ⟨impl, rfl, Or.inr ⟨rfl, Or.inr rfl⟩⟩⟩⟩
        · rw [destroy_setenv_error sys dataset s hfree e1 w1 h1]
          exact ⟨_, _, _, rfl, rfl, rfl,
            Or.inr ⟨rfl, Or.inl ⟨impl, rfl, Or.inr ⟨rfl, Or.inl rfl⟩⟩⟩⟩
      · rw [destroy_flag_error sys dataset flag s hflag]
        exact ⟨_, s, [], rfl, hfree, by simp, Or.inr ⟨rfl, Or.inl ⟨impl, rfl, Or.inl ⟨hflag, rfl⟩⟩⟩⟩
  · rw [DestroyDataset_invalid sys dataset flag s e hv]
    exact ⟨_, s, [], rfl, hfree, by simp, Or.inl ⟨by simp, rfl⟩⟩

/-! ## C1: an unsupported destroy flag -/

/-- C1, as stated, fails on the code: the flag is examined after the implicit
lookup.  On an entity without a handle and the flag 3, `DestroyDataset` calls
`GetDataset` (it takes the lock, sets `ZFS_HOST` and asks the subsystem) and
stores the handle in the entity before it returns the programmer error. -/
theorem destroy_unsupported_flag_lookup_first :
    (3 : DestroyFlag) ≠ DestroyRecursively ∧
    DestroyDataset memSys
        { datasetImpl := none, Name := "tank/vol1", Mountpoint := "", Hostname := "node-a" }
        3 memState =
      some ((some (GoError.new "programmer error: flag not implemented: 3"),
             { datasetImpl := some { Name := "tank/vol1", Mountpoint := "/export/vol1" },
               Name := "tank/vol1", Mountpoint := "", Hostname := "node-a" }),
            { world := memWorld, env := [("ZFS_HOST", "node-a")], locked := false,
              trace := [Event.callGetDataset "tank/vol1" "node-a",
                        Event.klog "acquiring lock..." [], Event.lock,
                        Event.setenv "ZFS_HOST" "node-a",
                        Event.gozfsGetDataset "tank/vol1", Event.unlock] }) := by
  decide

/-- C1 (amended): for an entity with non-empty name and host and a flag other
than `DestroyRecursively`, `DestroyDataset` never calls `Destroy`.  With a
handle present it returns the programmer error and does nothing else: the state
(lock, environment, trace) and the entity are unchanged.  With the handle
absent the implicit `GetDataset` runs first; its error is returned with the
entity unchanged if it fails, otherwise the handle is stored and the programmer
error is returned; the state is the one `GetDataset` left. -/
theorem destroy_unsupported_flag (sys : Sys W) (dataset : Dataset) (flag : DestroyFlag)
    (s : State W) (hname : dataset.Name ≠ "") (hhost : dataset.Hostname ≠ "")
    (hflag : flag ≠ DestroyRecursively) :
    (∀ impl, dataset.datasetImpl = some impl →
      DestroyDataset sys dataset flag s =
        some ((some (GoError.new ("programmer error: flag not implemented: " ++ toString flag)),
               dataset), s)) ∧
    (dataset.datasetImpl = none → s.locked = false →
      ∃ r s1 evs, GetDataset sys dataset.Name dataset.Hostname s = some (r, s1) ∧
        s1.trace = s.trace ++ evs ∧ evs.all (fun ev => !ev.isDestroy) = true ∧
        ((∃ e, r = (none, some e) ∧
            DestroyDataset sys dataset flag s = some ((some e, dataset), s1)) ∨
         (∃ ds, r = (some ds, none) ∧ ds.datasetImpl ≠ none ∧
            DestroyDataset sys dataset flag s =
              some ((some (GoError.new
                      ("programmer error: flag not implemented: " ++ toString flag)),
                     { dataset with datasetImpl := ds.datasetImpl }), s1)))) := by
  have hv := validateDataset_ok dataset hname hhost
  refine ⟨fun impl himpl => ?_, fun himpl hfree => ?_⟩
  · rw [DestroyDataset_handle sys dataset flag s impl hv himpl,
      destroy_flag_error sys dataset flag s hflag]
  · rcases h1 : sys.Setenv s.world HostEnvVar dataset.Hostname with ⟨_ | e1, w1⟩
    · rcases h2 : sys.GetDataset w1 (setVar s.env HostEnvVar dataset.Hostname) dataset.Name
        with ⟨e2 | ds, w2⟩
      · have hget := GetDataset_lookup_error sys dataset.Name dataset.Hostname s hfree e2 w1 w2 h1 h2
        refine ⟨_, _, _, hget, rfl, by simp [Event.isDestroy], Or.inl ⟨e2, rfl, ?_⟩⟩
        exact DestroyDataset_lookup_error sys dataset flag s _ e2 hv himpl hget
      · have hget := GetDataset_ok sys dataset.Name dataset.Hostname s hfree ds w1 w2 h1 h2
        refine ⟨_, _, _, hget, rfl, by simp [Event.isDestroy], Or.inr ⟨_, rfl, by simp, ?_⟩⟩
        rw [DestroyDataset_lookup_ok sys dataset flag s _ _ hv himpl hget,
          destroy_flag_error sys _ flag _ hflag]
    · have hget := GetDataset_setenv_error sys dataset.Name dataset.Hostname s hfree e1 w1 h1
      refine ⟨_, _, _, hget, rfl, by simp [Event.isDestroy], Or.inl ⟨e1, rfl, ?_⟩⟩
      exact DestroyDataset_lookup_error sys dataset flag s _ e1 hv himpl hget

/-- C1 (amended), on an entity of `node-a` that carries its handle, flag 3. -/
theorem destroy_unsupported_flag_witness :
    DestroyDataset memSys
        { datasetImpl := some { Name := "tank/vol1", Mountpoint := "/export/vol1" },
          Name := "tank/vol1", Mountpoint := "/export/vol1", Hostname := "node-a" }
        3 memState =
      some ((some (GoError.new "programmer error: flag not implemented: 3"),
             { datasetImpl := some { Name := "tank/vol1", Mountpoint := "/export/vol1" },
               Name := "tank/vol1", Mountpoint := "/export/vol1", Hostname := "node-a" }),
            memState) :=
  (destroy_unsupported_flag memSys
    { datasetImpl := some { Name := "tank/vol1", Mountpoint := "/export/vol1" },
      Name := "tank/vol1", Mountpoint := "/export/vol1", Hostname := "node-a" }
    3 memState (by decide) (by decide) (by decide)).1 _ rfl

/-! ## C2: validation failures -/

/-- C2: when the name, the host or (for `SetPermissions`) the mountpoint of
the entity is empty, the operation returns an error and the state of the
process is the one it started from: the lock was not taken, `ZFS_HOST` was not
set, and no call was made (the trace is unchanged), so neither the subsystem,
the helper, `Lstat` nor `Chmod` was invoked. -/
theorem validation_failure_no_side_effect (sys : Sys W) (dataset : Dataset) (flag : DestroyFlag)
    (uid gid perm : String) (s : State W)
    (h : dataset.Name = "" ∨ dataset.Hostname = "" ∨ dataset.Mountpoint = "") :
    (∃ e, SetPermissions sys dataset uid gid perm s = some (some e, s)) ∧
    (dataset.Name = "" ∨ dataset.Hostname = "" →
      ∃ e, DestroyDataset sys dataset flag s = some ((some e, dataset), s)) := by
  constructor
  · by_cases hnh : dataset.Name = "" ∨ dataset.Hostname = ""
    · obtain ⟨e, he⟩ := validateDataset_error dataset hnh
      exact ⟨e, SetPermissions_invalid sys dataset uid gid perm s e he⟩
    · have hn : dataset.Name ≠ "" := fun hn => hnh (Or.inl hn)
      have hh : dataset.Hostname ≠ "" := fun hh => hnh (Or.inr hh)
      have hmp : dataset.Mountpoint = "" := by
        rcases h with h | h | h
        · exact absurd h hn
        · exact absurd h hh
        · exact h
      exact ⟨_, SetPermissions_no_mountpoint sys dataset uid gid perm s
        (validateDataset_ok dataset hn hh) hmp⟩
  · intro hnh
    obtain ⟨e, he⟩ := validateDataset_error dataset hnh
    exact ⟨e, DestroyDataset_invalid sys dataset flag s e he⟩

/-- C2 on an entity of `node-a` without a name: both operations fail and
leave the state untouched. -/
theorem validation_failure_no_side_effect_witness :
    (∃ e, SetPermissions memSys
        { datasetImpl := none, Name := "", Mountpoint := "/export/vol1", Hostname := "node-a" }
        "1000" "1000" "0770" memState = some (some e, memState)) ∧
    (∃ e, DestroyDataset memSys
        { datasetImpl := none, Name := "", Mountpoint := "/export/vol1", Hostname := "node-a" }
        DestroyRecursively memState =
      some ((some e, { datasetImpl := none, Name := "", Mountpoint := "/export/vol1",
                       Hostname := "node-a" }), memState)) :=
  ⟨(validation_failure_no_side_effect memSys
      { datasetImpl := none, Name := "", Mountpoint := "/export/vol1", Hostname := "node-a" }
      DestroyRecursively "1000" "1000" "0770" memState (Or.inl rfl)).1,
   (validation_failure_no_side_effect memSys
      { datasetImpl := none, Name := "", Mountpoint := "/export/vol1", Hostname := "node-a" }
      DestroyRecursively "1000" "1000" "0770" memState (Or.inl rfl)).2 (Or.inl rfl)⟩

/-! ## C4: the implicit lookup of `DestroyDataset` -/

/-- C4: `DestroyDataset` with `DestroyRecursively` on an entity with non-empty
name and host, started with the lock free, returns; when the handle is absent
its trace holds exactly one invocation of `GetDataset`, the one for
`(Name, Hostname)`, and that invocation lies before the first `Destroy` call;
when the handle is present the trace holds no invocation of `GetDataset` and no
`gozfs.GetDataset` call. -/
theorem destroy_lookup_count (sys : Sys W) (dataset : Dataset) (s : State W)
    (hname : dataset.Name ≠ "") (hhost : dataset.Hostname ≠ "") (hfree : s.locked = false) :
    ∃ r s' evs, DestroyDataset sys dataset DestroyRecursively s = some (r, s') ∧
      s'.trace = s.trace ++ evs ∧
      (dataset.datasetImpl = none →
        evs.count (Event.callGetDataset dataset.Name dataset.Hostname) = 1 ∧
        evs.countP Event.isLookup = 1 ∧
        (beforeDestroy evs).count (Event.callGetDataset dataset.Name dataset.Hostname) = 1 ∧
        evs.countP Event.isDestroy ≤ 1) ∧
      (dataset.datasetImpl ≠ none →
        evs.countP Event.isLookup = 0 ∧ evs.countP Event.isGozfsGet = 0) := by
  obtain ⟨r, s', evs, hrun, -, htrace, hshape⟩ :=
    DestroyDataset_shape sys dataset DestroyRecursively s hfree
  have hv := validateDataset_ok dataset hname hhost
  refine ⟨r, s', evs, hrun, htrace, ?_, ?_⟩
  · intro himpl
    rcases hshape with ⟨hne, -⟩ | ⟨-, ⟨impl, hsome, -⟩ | ⟨-, h | h | ⟨-, ds, h | h⟩⟩⟩
    · exact absurd hv hne
    · rw [himpl] at hsome; cases hsome
    all_goals
      subst h
      simp [traceLookupAborted, traceLookup, traceDestroyAborted, traceDestroy, beforeDestroy,
        Event.isLookup, Event.isDestroy, List.count_cons, List.countP_cons, List.takeWhile]
  · intro himpl
    rcases hshape with ⟨hne, -⟩ | ⟨-, ⟨impl, -, ⟨hflag, -⟩ | ⟨-, h | h⟩⟩ | ⟨hnone, -⟩⟩
    · exact absurd hv hne
    · exact absurd rfl hflag
    · subst h
      simp [traceDestroyAborted, Event.isLookup, Event.isGozfsGet, List.countP_cons]
    · subst h
      simp [traceDestroy, Event.isLookup, Event.isGozfsGet, List.countP_cons]
    · exact absurd hnone himpl

/-- C4 on `tank/vol1` of `node-a`, without a handle: one lookup, then the
destructive call. -/
theorem destroy_lookup_count_witness :
    ∃ r s' evs, DestroyDataset memSys
        { datasetImpl := none, Name := "tank/vol1", Mountpoint := "", Hostname := "node-a" }
        DestroyRecursively memState = some (r, s') ∧
      s'.trace = memState.trace ++ evs ∧
      (evs.count (Event.callGetDataset "tank/vol1" "node-a") = 1 ∧
        evs.countP Event.isLookup = 1 ∧
        (beforeDestroy evs).count (Event.callGetDataset "tank/vol1" "node-a") = 1 ∧
        evs.countP Event.isDestroy ≤ 1) := by
  obtain ⟨r, s', evs, h1, h2, h3, -⟩ := destroy_lookup_count memSys
    { datasetImpl := none, Name := "tank/vol1", Mountpoint := "", Hostname := "node-a" }
    memState (by decide) (by decide) rfl
  exact ⟨r, s', evs, h1, h2, h3 rfl⟩

/-! ## C5: a failing implicit lookup -/

/-- C5: on an entity with non-empty name and host and no handle, if the
implicit `GetDataset` returns the error `e`, then `DestroyDataset` returns `e`,
the entity is returned unchanged (its handle is still absent), the state is the
one the lookup left, and no `Destroy` call was made. -/
theorem destroy_lookup_failure (sys : Sys W) (dataset : Dataset) (s s1 : State W)
    (r : Option Dataset) (e : GoError)
    (hname : dataset.Name ≠ "") (hhost : dataset.Hostname ≠ "")
    (himpl : dataset.datasetImpl = none)
    (hget : GetDataset sys dataset.Name dataset.Hostname s = some ((r, some e), s1)) :
    DestroyDataset sys dataset DestroyRecursively s = some ((some e, dataset), s1) ∧
    dataset.datasetImpl = none ∧
    ∃ evs, s1.trace = s.trace ++ evs ∧ evs.countP Event.isDestroy = 0 := by
  have hv := validateDataset_ok dataset hname hhost
  have hfree : s.locked = false := by
    cases h : s.locked
    · rfl
    · simp [GetDataset, Lock, klog, State.emit, h] at hget
  refine ⟨?_, himpl, ?_⟩
  · simp [DestroyDataset, hv, himpl, hget]
  · rcases h1 : sys.Setenv s.world HostEnvVar dataset.Hostname with ⟨_ | e1, w1⟩
    · rcases h2 : sys.GetDataset w1 (setVar s.env HostEnvVar dataset.Hostname) dataset.Name
        with ⟨e2 | ds, w2⟩
      · rw [GetDataset_lookup_error sys _ _ s hfree e2 w1 w2 h1 h2] at hget
        simp only [Option.some.injEq, Prod.mk.injEq] at hget
        obtain ⟨-, hs⟩ := hget
        subst hs
        exact ⟨_, rfl, by simp [Event.isDestroy, List.countP_cons]⟩
      · rw [GetDataset_ok sys _ _ s hfree ds w1 w2 h1 h2] at hget
        simp at hget
    · rw [GetDataset_setenv_error sys _ _ s hfree e1 w1 h1] at hget
      simp only [Option.some.injEq, Prod.mk.injEq] at hget
      obtain ⟨-, hs⟩ := hget
      subst hs
      exact ⟨_, rfl, by simp [Event.isDestroy, List.countP_cons]⟩

/-- C5 on a dataset that `node-a` does not have: the error of the lookup comes
back and the subsystem is not asked to destroy anything. -/
theorem destroy_lookup_failure_witness :
    DestroyDataset memSys
        { datasetImpl := none, Name := "tank/gone", Mountpoint := "", Hostname := "node-a" }
        DestroyRecursively memState =
      some ((some (GoError.new "dataset does not exist"),
             { datasetImpl := none, Name := "tank/gone", Mountpoint := "", Hostname := "node-a" }),
            { world := memWorld, env := [("ZFS_HOST", "node-a")], locked := false,
              trace := [Event.callGetDataset "tank/gone" "node-a",
                        Event.klog "acquiring lock..." [], Event.lock,
                        Event.setenv "ZFS_HOST" "node-a",
                        Event.gozfsGetDataset "tank/gone", Event.unlock] }) :=
  (destroy_lookup_failure memSys
    { datasetImpl := none, Name := "tank/gone", Mountpoint := "", Hostname := "node-a" }
    memState _ none (GoError.new "dataset does not exist")
    (by decide) (by decide) rfl (by decide)).1

/-! ## C10: the results of `GetDataset` and `CreateDataset` -/

/-- C10: started with the lock free, once `ZFS_HOST` is set, `GetDataset` and
`CreateDataset` return what the subsystem call gives: on a response `r` a nil
error and the entity made of `r.Name`, `r.Mountpoint`, the requested host and
the handle `r`; on an error `e` no entity and `e`. -/
theorem get_create_result (sys : Sys W) (name hostname : String) (properties : Properties)
    (s : State W) (w1 : W) (hfree : s.locked = false)
    (hset : sys.Setenv s.world HostEnvVar hostname = (none, w1)) :
    (∀ r w2, sys.GetDataset w1 (setVar s.env HostEnvVar hostname) name = (Except.ok r, w2) →
      ∃ s', GetDataset sys name hostname s =
        some ((some { datasetImpl := some r, Name := r.Name, Mountpoint := r.Mountpoint,
                      Hostname := hostname }, none), s')) ∧
    (∀ e w2, sys.GetDataset w1 (setVar s.env HostEnvVar hostname) name = (Except.error e, w2) →
      ∃ s', GetDataset sys name hostname s = some ((none, some e), s')) ∧
    (∀ r w2, sys.CreateFilesystem w1 (setVar s.env HostEnvVar hostname) name properties
        = (Except.ok r, w2) →
      ∃ s', CreateDataset sys name hostname properties s =
        some ((some { datasetImpl := some r, Name := r.Name, Mountpoint := r.Mountpoint,
                      Hostname := hostname }, none), s')) ∧
    (∀ e w2, sys.CreateFilesystem w1 (setVar s.env HostEnvVar hostname) name properties
        = (Except.error e, w2) →
      ∃ s', CreateDataset sys name hostname properties s = some ((none, some e), s')) :=
  ⟨fun r w2 h2 => ⟨_, GetDataset_ok sys name hostname s hfree r w1 w2 hset h2⟩,
   fun e w2 h2 => ⟨_, GetDataset_lookup_error sys name hostname s hfree e w1 w2 hset h2⟩,
   fun r w2 h2 => ⟨_, CreateDataset_ok sys name hostname properties s hfree r w1 w2 hset h2⟩,
   fun e w2 h2 =>
    ⟨_, CreateDataset_create_error sys name hostname properties s hfree e w1 w2 hset h2⟩⟩

/-- C10 on the in-memory world: looking up `tank/vol1` on `node-a` gives the
entity of the response, creating it again gives the error of the subsystem. -/
theorem get_create_result_witness :
    (∃ s', GetDataset memSys "tank/vol1" "node-a" memState =
      some ((some { datasetImpl := some { Name := "tank/vol1", Mountpoint := "/export/vol1" },
                    Name := "tank/vol1", Mountpoint := "/export/vol1",
                    Hostname := "node-a" }, none), s')) ∧
    (∃ s', CreateDataset memSys "tank/vol1" "node-a" [("quota", "10G")] memState =
      some ((none, some (GoError.new "dataset already exists")), s')) :=
  ⟨(get_create_result memSys "tank/vol1" "node-a" [("quota", "10G")] memState memWorld rfl
      (by decide)).1 { Name := "tank/vol1", Mountpoint := "/export/vol1" } memWorld rfl,
   (get_create_result memSys "tank/vol1" "node-a" [("quota", "10G")] memState memWorld rfl
      (by decide)).2.2.2 (GoError.new "dataset already exists") memWorld rfl⟩

/-! ## C6: the fallback of `SetPermissions` -/

/-- C6: on an entity with non-empty name, host and mountpoint, started with the
lock free, when `ZFS_HOST` is set, `update-permissions` does not resolve to an
absolute path and `Lstat` reports the mode `m`, `SetPermissions` calls `Chmod`
once, with the mode `m ||| 0o020`, and returns what `Chmod` returns; the helper
is not run.  In that mode the group-write bit (bit 4) is set and every other
bit is the bit of `m`; it stays a `uint32`; 0644 gives 0664 and 0750 gives
0770.  The outcome is the same for all `uid`, `gid` and `perm`.  Applied to a
file whose mode is already `m ||| 0o020`, the mode passed to `Chmod` is again
`m ||| 0o020`. -/
theorem fallback_sets_group_write (sys : Sys W) (dataset : Dataset) (uid gid perm : String)
    (s : State W) (w1 w2 w3 : W) (lp : String) (m : FileMode)
    (hname : dataset.Name ≠ "") (hhost : dataset.Hostname ≠ "")
    (hmp : dataset.Mountpoint ≠ "") (hfree : s.locked = false)
    (h1 : sys.Setenv s.world HostEnvVar dataset.Hostname = (none, w1))
    (h2 : sys.LookPath w1 (setVar s.env HostEnvVar dataset.Hostname) "update-permissions"
            = (lp, w2))
    (habs : filepathIsAbs (if lp = "" then "update-permissions" else lp) = false)
    (h3 : sys.Lstat w2 dataset.Mountpoint = (Except.ok m, w3)) :
    SetPermissions sys dataset uid gid perm s =
      some ((sys.Chmod w3 dataset.Mountpoint (m ||| 0o020)).1,
        { world := (sys.Chmod w3 dataset.Mountpoint (m ||| 0o020)).2,
          env := setVar s.env HostEnvVar dataset.Hostname, locked := false,
          trace := s.trace ++ [Event.lock, Event.setenv HostEnvVar dataset.Hostname,
            Event.lookPath "update-permissions", Event.lstat dataset.Mountpoint,
            Event.chmod dataset.Mountpoint (m ||| 0o020), Event.unlock] }) ∧
    (m ||| 0o020).testBit 4 = true ∧
    (∀ i, i ≠ 4 → (m ||| 0o020).testBit i = m.testBit i) ∧
    (m < 2 ^ 32 → m ||| 0o020 < 2 ^ 32) ∧
    ((0o644 : FileMode) ||| 0o020 = 0o664 ∧ (0o750 : FileMode) ||| 0o020 = 0o770) ∧
    (∀ uid1 gid1 perm1, SetPermissions sys dataset uid1 gid1 perm1 s
        = SetPermissions sys dataset uid gid perm s) ∧
    (∀ (t : State W) (v1 v2 v3 : W) (lq : String), t.locked = false →
      sys.Setenv t.world HostEnvVar dataset.Hostname = (none, v1) →
      sys.LookPath v1 (setVar t.env HostEnvVar dataset.Hostname) "update-permissions"
        = (lq, v2) →
      filepathIsAbs (if lq = "" then "update-permissions" else lq) = false →
      sys.Lstat v2 dataset.Mountpoint = (Except.ok (m ||| 0o020), v3) →
      SetPermissions sys dataset uid gid perm t =
        some ((sys.Chmod v3 dataset.Mountpoint (m ||| 0o020)).1,
          { world := (sys.Chmod v3 dataset.Mountpoint (m ||| 0o020)).2,
            env := setVar t.env HostEnvVar dataset.Hostname, locked := false,
            trace := t.trace ++ [Event.lock, Event.setenv HostEnvVar dataset.Hostname,
              Event.lookPath "update-permissions", Event.lstat dataset.Mountpoint,
              Event.chmod dataset.Mountpoint (m ||| 0o020), Event.unlock] })) := by
  have hv := validateDataset_ok dataset hname hhost
  have hrun : ∀ (u g p : String) (t : State W) (v1 v2 v3 : W) (lq : String) (k : FileMode),
      t.locked = false →
      sys.Setenv t.world HostEnvVar dataset.Hostname = (none, v1) →
      sys.LookPath v1 (setVar t.env HostEnvVar dataset.Hostname) "update-permissions"
        = (lq, v2) →
      filepathIsAbs (if lq = "" then "update-permissions" else lq) = false →
      sys.Lstat v2 dataset.Mountpoint = (Except.ok k, v3) →
      SetPermissions sys dataset u g p t =
        some ((sys.Chmod v3 dataset.Mountpoint (k ||| 0o020)).1,
          { world := (sys.Chmod v3 dataset.Mountpoint (k ||| 0o020)).2,
            env := setVar t.env HostEnvVar dataset.Hostname, locked := false,
            trace := t.trace ++ [Event.lock, Event.setenv HostEnvVar dataset.Hostname,
              Event.lookPath "update-permissions", Event.lstat dataset.Mountpoint,
              Event.chmod dataset.Mountpoint (k ||| 0o020), Event.unlock] }) :=
    fun u g p t v1 v2 v3 lq k ht g1 g2 g3 g4 =>
      SetPermissions_chmod sys dataset u g p t hv hmp ht v1 v2 v3 _ lq k _ g1 g2 g3 g4 rfl
  have hbit : ∀ i, (m ||| 0o020).testBit i = (m.testBit i || decide (4 = i)) := by
    intro i
    have h16 : (0o020 : Nat) = 2 ^ 4 := by norm_num
    rw [Nat.testBit_lor, h16, Nat.testBit_two_pow]
  refine ⟨hrun uid gid perm s w1 w2 w3 lp m hfree h1 h2 habs h3, ?_, ?_, ?_, ⟨by decide, by decide⟩,
    ?_, ?_⟩
  · rw [hbit]; simp
  · intro i hi
    rw [hbit]
    have : decide (4 = i) = false := by simpa using fun h => hi h.symm
    rw [this, Bool.or_false]
  · intro hm
    exact Nat.or_lt_two_pow hm (by norm_num)
  · intro u g p
    rw [hrun u g p s w1 w2 w3 lp m hfree h1 h2 habs h3,
      hrun uid gid perm s w1 w2 w3 lp m hfree h1 h2 habs h3]
  · intro t v1 v2 v3 lq ht g1 g2 g3 g4
    have := hrun uid gid perm t v1 v2 v3 lq (m ||| 0o020) ht g1 g2 g3 g4
    have hidem : (m ||| 0o020) ||| 0o020 = m ||| 0o020 := by
      rw [Nat.lor_assoc, Nat.or_self]
    rwa [hidem] at this

/-- C6 on the in-memory world, where `/export/vol1` has the mode 0644 and no
helper is installed: the mode becomes 0664, and a second call leaves it 0664. -/
theorem fallback_sets_group_write_witness :
    SetPermissions memSys
        { datasetImpl := none, Name := "tank/vol1", Mountpoint := "/export/vol1",
          Hostname := "node-a" } "1000" "1000" "0770" memState =
      some (none,
        { world := { memWorld with modes := [("/export/vol1", 0o664)] },
          env := [("ZFS_HOST", "node-a")], locked := false,
          trace := [Event.lock, Event.setenv "ZFS_HOST" "node-a",
            Event.lookPath "update-permissions", Event.lstat "/export/vol1",
            Event.chmod "/export/vol1" 0o664, Event.unlock] }) ∧
    SetPermissions memSys
        { datasetImpl := none, Name := "tank/vol1", Mountpoint := "/export/vol1",
          Hostname := "node-a" } "1000" "1000" "0770"
        { world := { memWorld with modes := [("/export/vol1", 0o664)] },
          env := [("ZFS_HOST", "node-a")], locked := false, trace := [] } =
      some (none,
        { world := { memWorld with modes := [("/export/vol1", 0o664)] },
          env := [("ZFS_HOST", "node-a")], locked := false,
          trace := [Event.lock, Event.setenv "ZFS_HOST" "node-a",
            Event.lookPath "update-permissions", Event.lstat "/export/vol1",
            Event.chmod "/export/vol1" 0o664, Event.unlock] }) :=
  have h := fallback_sets_group_write memSys
    { datasetImpl := none, Name := "tank/vol1", Mountpoint := "/export/vol1",
      Hostname := "node-a" } "1000" "1000" "0770" memState memWorld memWorld memWorld "" 0o644
    (by decide) (by decide) (by decide) rfl rfl rfl rfl rfl
  ⟨h.1, h.2.2.2.2.2.2
    { world := { memWorld with modes := [("/export/vol1", 0o664)] },
      env := [("ZFS_HOST", "node-a")], locked := false, trace := [] }
    { memWorld with modes := [("/export/vol1", 0o664)] }
    { memWorld with modes := [("/export/vol1", 0o664)] }
    { memWorld with modes := [("/export/vol1", 0o664)] } "" rfl rfl rfl rfl rfl⟩

/-! ## C7: what the error messages carry -/

theorem GetDataset_locked (sys : Sys W) (name hostname : String) (s : State W)
    (h : s.locked = true) : GetDataset sys name hostname s = none := by
  simp [GetDataset, Lock, klog, State.emit, h]

theorem CreateDataset_locked (sys : Sys W) (name hostname : String) (properties : Properties)
    (s : State W) (h : s.locked = true) : CreateDataset sys name hostname properties s = none := by
  simp [CreateDataset, Lock, klog, State.emit, h]

theorem destroy_locked (sys : Sys W) (dataset : Dataset) (s : State W)
    (h : s.locked = true) : DestroyDataset.destroy sys dataset DestroyRecursively s = none := by
  simp [DestroyDataset.destroy, Lock, klog, State.emit, h]

theorem Contains_middle (a b c : String) : Contains (a ++ b ++ c) b := by
  unfold Contains
  exact ⟨a.data, c.data, by simp [String.data_append]⟩

theorem GetDataset_error_origin (sys : Sys W) (name hostname : String) (s s' : State W)
    (r : Option Dataset) (e : GoError)
    (hget : GetDataset sys name hostname s = some ((r, some e), s')) : FromLibrary sys e := by
  cases hl : s.locked
  · rcases h1 : sys.Setenv s.world HostEnvVar hostname with ⟨_ | e1, w1⟩
    · rcases h2 : sys.GetDataset w1 (setVar s.env HostEnvVar hostname) name with ⟨e2 | ds, w2⟩
      · rw [GetDataset_lookup_error sys _ _ s hl e2 w1 w2 h1 h2] at hget
        simp only [Option.some.injEq, Prod.mk.injEq] at hget
        obtain ⟨⟨-, he⟩, -⟩ := hget
        subst he
        exact FromLibrary.getDataset w1 _ name (by rw [h2])
      · rw [GetDataset_ok sys _ _ s hl ds w1 w2 h1 h2] at hget
        simp at hget
    · rw [GetDataset_setenv_error sys _ _ s hl e1 w1 h1] at hget
      simp only [Option.some.injEq, Prod.mk.injEq] at hget
      obtain ⟨⟨-, he⟩, -⟩ := hget
      subst he
      exact FromLibrary.setenv s.world _ _ (by rw [h1])
  · rw [GetDataset_locked sys name hostname s hl] at hget
    cases hget

theorem CreateDataset_error_origin (sys : Sys W) (name hostname : String)
    (properties : Properties) (s s' : State W) (r : Option Dataset) (e : GoError)
    (hcr : CreateDataset sys name hostname properties s = some ((r, some e), s')) :
    FromLibrary sys e := by
  cases hl : s.locked
  · rcases h1 : sys.Setenv s.world HostEnvVar hostname with ⟨_ | e1, w1⟩
    · rcases h2 : sys.CreateFilesystem w1 (setVar s.env HostEnvVar hostname) name properties
        with ⟨e2 | ds, w2⟩
      · rw [CreateDataset_create_error sys _ _ _ s hl e2 w1 w2 h1 h2] at hcr
        simp only [Option.some.injEq, Prod.mk.injEq] at hcr
        obtain ⟨⟨-, he⟩, -⟩ := hcr
        subst he
        exact FromLibrary.createFilesystem w1 _ name properties (by rw [h2])
      · rw [CreateDataset_ok sys _ _ _ s hl ds w1 w2 h1 h2] at hcr
        simp at hcr
    · rw [CreateDataset_setenv_error sys _ _ _ s hl e1 w1 h1] at hcr
      simp only [Option.some.injEq, Prod.mk.injEq] at hcr
      obtain ⟨⟨-, he⟩, -⟩ := hcr
      subst he
      exact FromLibrary.setenv s.world _ _ (by rw [h1])
  · rw [CreateDataset_locked sys name hostname properties s hl] at hcr
    cases hcr

theorem destroy_error_origin (sys : Sys W) (dataset : Dataset) (flag : DestroyFlag)
    (s s' : State W) (d' : Dataset) (e : GoError)
    (hd : DestroyDataset.destroy sys dataset flag s = some ((some e, d'), s')) :
    e = GoError.new ("programmer error: flag not implemented: " ++ toString flag) ∨
    FromLibrary sys e := by
  by_cases hflag : flag = DestroyRecursively
  · subst hflag
    right
    cases hl : s.locked
    · rcases h1 : sys.Setenv s.world HostEnvVar dataset.Hostname with ⟨_ | e1, w1⟩
      · rcases himpl : dataset.datasetImpl with _ | impl
        · simp [DestroyDataset.destroy, Lock, klog, State.emit, setEnvironmentVars, osSetenv,
            hl, h1, himpl] at hd
        · rw [destroy_call sys dataset impl s himpl hl w1 h1] at hd
          simp only [Option.some.injEq, Prod.mk.injEq] at hd
          exact FromLibrary.destroy w1 _ impl _ hd.1.1
      · rw [destroy_setenv_error sys dataset s hl e1 w1 h1] at hd
        simp only [Option.some.injEq, Prod.mk.injEq] at hd
        obtain ⟨⟨he, -⟩, -⟩ := hd
        subst he
        exact FromLibrary.setenv s.world _ _ (by rw [h1])
    · rw [destroy_locked sys dataset s hl] at hd
      cases hd
  · rw [destroy_flag_error sys dataset flag s hflag] at hd
    simp only [Option.some.injEq, Prod.mk.injEq] at hd
    exact Or.inl hd.1.1.symm

theorem validateDataset_error_form (dataset : Dataset) (e : GoError)
    (hv : validateDataset dataset = some e) :
    e = GoError.new "undefined dataset name" ∨
    e = GoError.new ("required hostname parameter not given for dataset '"
          ++ dataset.Name ++ "'") := by
  unfold validateDataset at hv
  split at hv
  · left; cases hv; rfl
  · split at hv
    · right; cases hv; rfl
    · cases hv

theorem SetPermissions_locked (sys : Sys W) (dataset : Dataset) (uid gid perm : String)
    (s : State W) (hv : validateDataset dataset = none) (hmp : dataset.Mountpoint ≠ "")
    (h : s.locked = true) : SetPermissions sys dataset uid gid perm s = none := by
  simp [SetPermissions, Lock, hv, hmp, h]

theorem SetPermissions_error_origin (sys : Sys W) (dataset : Dataset) (uid gid perm : String)
    (s s' : State W) (e : GoError)
    (hv : validateDataset dataset = none) (hmp : dataset.Mountpoint ≠ "")
    (hsp : SetPermissions sys dataset uid gid perm s = some (some e, s')) :
    (∃ cause out, e = GoError.wrap ("could not update permissions on '" ++ dataset.Hostname
        ++ "': " ++ cause.Error ++ ": " ++ out) cause) ∨ FromLibrary sys e := by
  cases hl : s.locked
  · rcases h1 : sys.Setenv s.world HostEnvVar dataset.Hostname with ⟨_ | e1, w1⟩
    · rcases h2 : sys.LookPath w1 (setVar s.env HostEnvVar dataset.Hostname)
        "update-permissions" with ⟨lp, w2⟩
      cases habs : filepathIsAbs (if lp = "" then "update-permissions" else lp)
      · rcases h3 : sys.Lstat w2 dataset.Mountpoint with ⟨e3 | m, w3⟩
        · rw [SetPermissions_lstat_error sys dataset uid gid perm s hv hmp hl w1 w2 w3 lp e3
            h1 h2 habs h3] at hsp
          simp only [Option.some.injEq, Prod.mk.injEq] at hsp
          obtain ⟨he, -⟩ := hsp
          subst he
          exact Or.inr (FromLibrary.lstat w2 _ (by rw [h3]))
        · rw [SetPermissions_chmod sys dataset uid gid perm s hv hmp hl w1 w2 w3 _ lp m _
            h1 h2 habs h3 rfl] at hsp
          simp only [Option.some.injEq, Prod.mk.injEq] at hsp
          exact Or.inr (FromLibrary.chmod w3 _ _ hsp.1)
      · rcases h3 : sys.CombinedOutput w2 (setVar s.env HostEnvVar dataset.Hostname)
            (if lp = "" then "update-permissions" else lp)
            ["update-permissions", dataset.Mountpoint, uid, gid, perm] with ⟨⟨out, r⟩, w3⟩
        rw [SetPermissions_helper sys dataset uid gid perm s hv hmp hl w1 w2 w3 lp out r
          h1 h2 habs h3] at hsp
        simp only [Option.some.injEq, Prod.mk.injEq] at hsp
        obtain ⟨he, -⟩ := hsp
        cases r with
        | none => simp at he
        | some cause =>
          simp only [Option.map_some', Option.some.injEq] at he
          exact Or.inl ⟨cause, out, he.symm⟩
    · rw [SetPermissions_setenv_error sys dataset uid gid perm s hv hmp hl e1 w1 h1] at hsp
      simp only [Option.some.injEq, Prod.mk.injEq] at hsp
      obtain ⟨he, -⟩ := hsp
      subst he
      exact Or.inr (FromLibrary.setenv s.world _ _ (by rw [h1]))
  · rw [SetPermissions_locked sys dataset uid gid perm s hv hmp hl] at hsp
    cases hsp

/-- C7, as stated, fails on the code: on an entity of `node-a` without a
mountpoint, the error of `SetPermissions` names the dataset but not the host;
on an entity with its handle and the flag 3, the error of `DestroyDataset`
names neither the dataset nor the host. -/
theorem failure_message_lacks_host :
    (SetPermissions memSys
        { datasetImpl := none, Name := "tank/vol1", Mountpoint := "", Hostname := "node-a" }
        "1000" "1000" "0770" memState =
      some (some (GoError.new "undefined mountpoint for dataset: tank/vol1"), memState) ∧
     ¬ Contains (GoError.new "undefined mountpoint for dataset: tank/vol1").Error "node-a") ∧
    (DestroyDataset memSys
        { datasetImpl := some { Name := "tank/vol1", Mountpoint := "/export/vol1" },
          Name := "tank/vol1", Mountpoint := "/export/vol1", Hostname := "node-a" }
        3 memState =
      some ((some (GoError.new "programmer error: flag not implemented: 3"),
             { datasetImpl := some { Name := "tank/vol1", Mountpoint := "/export/vol1" },
               Name := "tank/vol1", Mountpoint := "/export/vol1", Hostname := "node-a" }),
            memState) ∧
     ¬ Contains (GoError.new "programmer error: flag not implemented: 3").Error "tank/vol1" ∧
     ¬ Contains (GoError.new "programmer error: flag not implemented: 3").Error "node-a") := by
  decide

/-- C7 (amended): an error returned by `GetDataset` or `CreateDataset` is the
error of a library call, passed on as it is.  An error returned by
`DestroyDataset` or `SetPermissions` is either the error of a library call,
passed on as it is, or one of five errors the package builds: "undefined
dataset name"; the missing-hostname error, whose message contains the dataset
name; the unsupported-flag error, whose message is made of the flag alone; the
undefined-mountpoint error, whose message contains the dataset name; the helper
error, whose message contains the host and which wraps the error of the
helper. -/
theorem failure_messages (sys : Sys W) (s s' : State W) (e : GoError) :
    (∀ name hostname r, GetDataset sys name hostname s = some ((r, some e), s') →
      FromLibrary sys e) ∧
    (∀ name hostname properties r,
      CreateDataset sys name hostname properties s = some ((r, some e), s') →
      FromLibrary sys e) ∧
    (∀ dataset flag d', DestroyDataset sys dataset flag s = some ((some e, d'), s') →
      e = GoError.new "undefined dataset name" ∨
      (e = GoError.new ("required hostname parameter not given for dataset '"
            ++ dataset.Name ++ "'") ∧ Contains e.Error dataset.Name) ∨
      e = GoError.new ("programmer error: flag not implemented: " ++ toString flag) ∨
      FromLibrary sys e) ∧
    (∀ dataset uid gid perm, SetPermissions sys dataset uid gid perm s = some (some e, s') →
      e = GoError.new "undefined dataset name" ∨
      (e = GoError.new ("required hostname parameter not given for dataset '"
            ++ dataset.Name ++ "'") ∧ Contains e.Error dataset.Name) ∨
      (e = GoError.new ("undefined mountpoint for dataset: " ++ dataset.Name) ∧
        Contains e.Error dataset.Name) ∨
      (∃ cause out, e = GoError.wrap ("could not update permissions on '" ++ dataset.Hostname
          ++ "': " ++ cause.Error ++ ": " ++ out) cause ∧ Contains e.Error dataset.Hostname) ∨
      FromLibrary sys e) := by
  have hval : ∀ (dataset : Dataset) (e0 : GoError), validateDataset dataset = some e0 →
      e0 = GoError.new "undefined dataset name" ∨
      (e0 = GoError.new ("required hostname parameter not given for dataset '"
            ++ dataset.Name ++ "'") ∧ Contains e0.Error dataset.Name) := by
    intro dataset e0 h0
    rcases validateDataset_error_form dataset e0 h0 with h | h
    · exact Or.inl h
    · refine Or.inr ⟨h, ?_⟩
      subst h
      exact Contains_middle _ _ _
  refine ⟨fun name hostname r h => GetDataset_error_origin sys name hostname s s' r e h,
    fun name hostname properties r h =>
      CreateDataset_error_origin sys name hostname properties s s' r e h, ?_, ?_⟩
  · intro dataset flag d' h
    rcases hv : validateDataset dataset with _ | e0
    · rcases himpl : dataset.datasetImpl with _ | impl
      · rcases hget : GetDataset sys dataset.Name dataset.Hostname s with
          _ | ⟨⟨r, _ | e1⟩, s1⟩
        · simp [DestroyDataset, hv, himpl, hget] at h
        · cases r with
          | none => simp [DestroyDataset, hv, himpl, hget] at h
          | some ds =>
            rw [DestroyDataset_lookup_ok sys dataset flag s s1 ds hv himpl hget] at h
            exact Or.inr (Or.inr (destroy_error_origin sys _ flag s1 s' d' e h))
        · have hret : DestroyDataset sys dataset flag s = some ((some e1, dataset), s1) := by
            simp [DestroyDataset, hv, himpl, hget]
          rw [hret] at h
          simp only [Option.some.injEq, Prod.mk.injEq] at h
          obtain ⟨⟨he, -⟩, hs⟩ := h
          subst he hs
          exact Or.inr (Or.inr (Or.inr
            (GetDataset_error_origin sys dataset.Name dataset.Hostname s _ r _ hget)))
      · rw [DestroyDataset_handle sys dataset flag s impl hv himpl] at h
        exact Or.inr (Or.inr (destroy_error_origin sys dataset flag s s' d' e h))
    · rw [DestroyDataset_invalid sys dataset flag s e0 hv] at h
      simp only [Option.some.injEq, Prod.mk.injEq] at h
      obtain ⟨⟨he, -⟩, -⟩ := h
      subst he
      rcases hval dataset e0 hv with h | h
      · exact Or.inl h
      · exact Or.inr (Or.inl h)
  · intro dataset uid gid perm h
    rcases hv : validateDataset dataset with _ | e0
    · by_cases hmp : dataset.Mountpoint = ""
      · rw [SetPermissions_no_mountpoint sys dataset uid gid perm s hv hmp] at h
        simp only [Option.some.injEq, Prod.mk.injEq] at h
        obtain ⟨he, -⟩ := h
        subst he
        refine Or.inr (Or.inr (Or.inl ⟨rfl, ?_⟩))
        exact ⟨"undefined mountpoint for dataset: ".data, [],
          by simp [GoError.Error, String.data_append]⟩
      · rcases SetPermissions_error_origin sys dataset uid gid perm s s' e hv hmp h with
          ⟨cause, out, he⟩ | hlib
        · refine Or.inr (Or.inr (Or.inr (Or.inl ⟨cause, out, he, ?_⟩)))
          subst he
          exact ⟨"could not update permissions on '".data,
            ("': " ++ cause.Error ++ ": " ++ out).data,
            by simp [GoError.Error, String.data_append]⟩
        · exact Or.inr (Or.inr (Or.inr (Or.inr hlib)))
    · rw [SetPermissions_invalid sys dataset uid gid perm s e0 hv] at h
      simp only [Option.some.injEq, Prod.mk.injEq] at h
      obtain ⟨he, -⟩ := h
      subst he
      rcases hval dataset e0 hv with h | h
      · exact Or.inl h
      · exact Or.inr (Or.inl h)

/-- C7 (amended) on an entity of the in-memory world without a mountpoint: the
error of `SetPermissions` is one of the five forms. -/
theorem failure_messages_witness :
    GoError.new "undefined mountpoint for dataset: tank/vol1"
        = GoError.new "undefined dataset name" ∨
    (GoError.new "undefined mountpoint for dataset: tank/vol1"
        = GoError.new ("required hostname parameter not given for dataset '"
            ++ "tank/vol1" ++ "'") ∧
      Contains (GoError.new "undefined mountpoint for dataset: tank/vol1").Error "tank/vol1") ∨
    (GoError.new "undefined mountpoint for dataset: tank/vol1"
        = GoError.new ("undefined mountpoint for dataset: " ++ "tank/vol1") ∧
      Contains (GoError.new "undefined mountpoint for dataset: tank/vol1").Error "tank/vol1") ∨
    (∃ cause out, GoError.new "undefined mountpoint for dataset: tank/vol1"
        = GoError.wrap ("could not update permissions on '" ++ "node-a"
          ++ "': " ++ cause.Error ++ ": " ++ out) cause ∧
      Contains (GoError.new "undefined mountpoint for dataset: tank/vol1").Error "node-a") ∨
    FromLibrary memSys (GoError.new "undefined mountpoint for dataset: tank/vol1") :=
  (failure_messages memSys memState memState
    (GoError.new "undefined mountpoint for dataset: tank/vol1")).2.2.2
    { datasetImpl := none, Name := "tank/vol1", Mountpoint := "", Hostname := "node-a" }
    "1000" "1000" "0770" (by decide)

/-! ## C8: `os.Setenv` fails -/

theorem GetDataset_returns_free (sys : Sys W) (name hostname : String) (s s1 : State W)
    (r : Option Dataset × Option GoError)
    (hget : GetDataset sys name hostname s = some (r, s1)) : s1.locked = false := by
  cases hl : s.locked
  · rcases h1 : sys.Setenv s.world HostEnvVar hostname with ⟨_ | e1, w1⟩
    · rcases h2 : sys.GetDataset w1 (setVar s.env HostEnvVar hostname) name with ⟨e2 | ds, w2⟩
      · rw [GetDataset_lookup_error sys _ _ s hl e2 w1 w2 h1 h2] at hget
        simp only [Option.some.injEq, Prod.mk.injEq] at hget
        rw [← hget.2]
      · rw [GetDataset_ok sys _ _ s hl ds w1 w2 h1 h2] at hget
        simp only [Option.some.injEq, Prod.mk.injEq] at hget
        rw [← hget.2]
    · rw [GetDataset_setenv_error sys _ _ s hl e1 w1 h1] at hget
      simp only [Option.some.injEq, Prod.mk.injEq] at hget
      rw [← hget.2]
  · rw [GetDataset_locked sys name hostname s hl] at hget
    cases hget

/-- C8: started with the lock free, when `os.Setenv` fails with `e` each
operation returns `e`, the lock is free again, `ZFS_HOST` keeps its value, and
the only calls made are `Lock`, the failed `Setenv` and `Unlock` (besides log
lines): no lookup, create or destroy call, no helper, `Lstat` or `Chmod`.  In
`DestroyDataset` this holds for the `Setenv` of the implicit lookup and, after
a lookup that succeeded, for the `Setenv` that precedes the destructive call:
then nothing follows the lookup but `Lock`, the failed `Setenv` and `Unlock`. -/
theorem setenv_failure_aborts (sys : Sys W) (s : State W) (e : GoError) (w1 : W)
    (hfree : s.locked = false) :
    (∀ name hostname, sys.Setenv s.world HostEnvVar hostname = (some e, w1) →
      GetDataset sys name hostname s = some ((none, some e),
        { world := w1, env := s.env, locked := false,
          trace := s.trace ++ [Event.callGetDataset name hostname,
            Event.klog "acquiring lock..." [], Event.lock, Event.setenv HostEnvVar hostname,
            Event.unlock] })) ∧
    (∀ name hostname properties, sys.Setenv s.world HostEnvVar hostname = (some e, w1) →
      CreateDataset sys name hostname properties s = some ((none, some e),
        { world := w1, env := s.env, locked := false,
          trace := s.trace ++ [Event.klog "acquiring lock..." [], Event.lock,
            Event.setenv HostEnvVar hostname, Event.unlock] })) ∧
    (∀ dataset uid gid perm, dataset.Name ≠ "" → dataset.Hostname ≠ "" →
      dataset.Mountpoint ≠ "" →
      sys.Setenv s.world HostEnvVar dataset.Hostname = (some e, w1) →
      SetPermissions sys dataset uid gid perm s = some (some e,
        { world := w1, env := s.env, locked := false,
          trace := s.trace ++ [Event.lock, Event.setenv HostEnvVar dataset.Hostname,
            Event.unlock] })) ∧
    (∀ dataset, dataset.Name ≠ "" → dataset.Hostname ≠ "" → dataset.datasetImpl ≠ none →
      sys.Setenv s.world HostEnvVar dataset.Hostname = (some e, w1) →
      DestroyDataset sys dataset DestroyRecursively s = some ((some e, dataset),
        { world := w1, env := s.env, locked := false,
          trace := s.trace ++ [Event.klog "acquiring lock..." [], Event.lock,
            Event.setenv HostEnvVar dataset.Hostname, Event.unlock] })) ∧
    (∀ dataset, dataset.Name ≠ "" → dataset.Hostname ≠ "" → dataset.datasetImpl = none →
      sys.Setenv s.world HostEnvVar dataset.Hostname = (some e, w1) →
      DestroyDataset sys dataset DestroyRecursively s = some ((some e, dataset),
        { world := w1, env := s.env, locked := false,
          trace := s.trace ++ [Event.callGetDataset dataset.Name dataset.Hostname,
            Event.klog "acquiring lock..." [], Event.lock,
            Event.setenv HostEnvVar dataset.Hostname, Event.unlock] })) ∧
    (∀ dataset ds s1, dataset.Name ≠ "" → dataset.Hostname ≠ "" →
      dataset.datasetImpl = none →
      GetDataset sys dataset.Name dataset.Hostname s = some ((some ds, none), s1) →
      sys.Setenv s1.world HostEnvVar dataset.Hostname = (some e, w1) →
      DestroyDataset sys dataset DestroyRecursively s =
        some ((some e, { dataset with datasetImpl := ds.datasetImpl }),
        { world := w1, env := s1.env, locked := false,
          trace := s1.trace ++ [Event.klog "acquiring lock..." [], Event.lock,
            Event.setenv HostEnvVar dataset.Hostname, Event.unlock] })) := by
  refine ⟨?_, ?_, ?_, ?_, ?_, ?_⟩
  · intro name hostname h1
    exact GetDataset_setenv_error sys name hostname s hfree e w1 h1
  · intro name hostname properties h1
    exact CreateDataset_setenv_error sys name hostname properties s hfree e w1 h1
  · intro dataset uid gid perm hname hhost hmp h1
    exact SetPermissions_setenv_error sys dataset uid gid perm s
      (validateDataset_ok dataset hname hhost) hmp hfree e w1 h1
  · intro dataset hname hhost himpl h1
    rcases hi : dataset.datasetImpl with _ | impl
    · exact absurd hi himpl
    · rw [DestroyDataset_handle sys dataset _ s impl (validateDataset_ok dataset hname hhost) hi]
      exact destroy_setenv_error sys dataset s hfree e w1 h1
  · intro dataset hname hhost himpl h1
    exact DestroyDataset_lookup_error sys dataset _ s _ e
      (validateDataset_ok dataset hname hhost) himpl
      (GetDataset_setenv_error sys dataset.Name dataset.Hostname s hfree e w1 h1)
  · intro dataset ds s1 hname hhost himpl hget h1
    rw [DestroyDataset_lookup_ok sys dataset _ s s1 ds
      (validateDataset_ok dataset hname hhost) himpl hget]
    exact destroy_setenv_error sys _ s1
      (GetDataset_returns_free sys _ _ s s1 _ hget) e w1 h1

/-- C8 on the in-memory world, whose `Setenv` rejects a host with a NUL byte:
`GetDataset` and `DestroyDataset` (on an entity with its handle) for such a
host return that error without reaching the subsystem, and the lock is free. -/
theorem setenv_failure_aborts_witness :
    GetDataset memSys "tank/vol1" "node\x00a" memState =
      some ((none, some (GoError.new "setenv: invalid argument")),
        { world := memWorld, env := [], locked := false,
          trace := [Event.callGetDataset "tank/vol1" "node\x00a",
            Event.klog "acquiring lock..." [], Event.lock, Event.setenv "ZFS_HOST" "node\x00a",
            Event.unlock] }) ∧
    DestroyDataset memSys
        { datasetImpl := some { Name := "tank/vol1", Mountpoint := "/export/vol1" },
          Name := "tank/vol1", Mountpoint := "/export/vol1", Hostname := "node\x00a" }
        DestroyRecursively memState =
      some ((some (GoError.new "setenv: invalid argument"),
        { datasetImpl := some { Name := "tank/vol1", Mountpoint := "/export/vol1" },
          Name := "tank/vol1", Mountpoint := "/export/vol1", Hostname := "node\x00a" }),
        { world := memWorld, env := [], locked := false,
          trace := [Event.klog "acquiring lock..." [], Event.lock,
            Event.setenv "ZFS_HOST" "node\x00a", Event.unlock] }) :=
  have h := setenv_failure_aborts memSys memState (GoError.new "setenv: invalid argument")
    memWorld rfl
  ⟨h.1 "tank/vol1" "node\x00a" rfl,
   h.2.2.2.1
    { datasetImpl := some { Name := "tank/vol1", Mountpoint := "/export/vol1" },
      Name := "tank/vol1", Mountpoint := "/export/vol1", Hostname := "node\x00a" }
    (by decide) (by decide) (by decide) rfl⟩

/-! ## C9: the lock discipline -/

theorem GetDataset_lock_pair (sys : Sys W) (name hostname : String) (s : State W)
    (hfree : s.locked = false) :
    ∃ r s' evs, GetDataset sys name hostname s = some (r, s') ∧ s'.locked = false ∧
      s'.trace = s.trace ++ evs ∧ replayLock false evs = some false ∧
      lockEvents evs = [Event.lock, Event.unlock] ∧ evs.countP Event.isDestroy = 0 ∧
      (evs = traceLookupAborted name hostname ∨ evs = traceLookup name hostname) := by
  rcases h1 : sys.Setenv s.world HostEnvVar hostname with ⟨_ | e1, w1⟩
  · rcases h2 : sys.GetDataset w1 (setVar s.env HostEnvVar hostname) name with ⟨e2 | ds, w2⟩
    · exact ⟨_, _, _, GetDataset_lookup_error sys _ _ s hfree e2 w1 w2 h1 h2, rfl, rfl, rfl,
        by simp [lockEvents], by simp [Event.isDestroy, List.countP_cons], Or.inr rfl⟩
    · exact ⟨_, _, _, GetDataset_ok sys _ _ s hfree ds w1 w2 h1 h2, rfl, rfl, rfl,
        by simp [lockEvents], by simp [Event.isDestroy, List.countP_cons], Or.inr rfl⟩
  · exact ⟨_, _, _, GetDataset_setenv_error sys _ _ s hfree e1 w1 h1, rfl, rfl, rfl,
      by simp [lockEvents], by simp [Event.isDestroy, List.countP_cons], Or.inl rfl⟩

theorem destroy_lock_pair (sys : Sys W) (dataset : Dataset) (impl : gozfs.Dataset)
    (flag : DestroyFlag) (s : State W) (himpl : dataset.datasetImpl = some impl)
    (hfree : s.locked = false) :
    ∃ r s' evs, DestroyDataset.destroy sys dataset flag s = some (r, s') ∧ s'.locked = false ∧
      s'.trace = s.trace ++ evs ∧ replayLock false evs = some false ∧
      (lockEvents evs = [] ∨ lockEvents evs = [Event.lock, Event.unlock]) := by
  by_cases hflag : flag = DestroyRecursively
  · subst hflag
    rcases h1 : sys.Setenv s.world HostEnvVar dataset.Hostname with ⟨_ | e1, w1⟩
    · exact ⟨_, _, _, destroy_call sys dataset impl s himpl hfree w1 h1, rfl, rfl, rfl,
        Or.inr (by simp [lockEvents])⟩
    · exact ⟨_, _, _, destroy_setenv_error sys dataset s hfree e1 w1 h1, rfl, rfl, rfl,
        Or.inr (by simp [lockEvents])⟩
  · exact ⟨_, s, [], destroy_flag_error sys dataset flag s hflag, hfree, by simp, rfl,
      Or.inl rfl⟩

/-- C9: each of the four operations, started with the lock free, returns on
every path with the lock free, and the `Lock`/`Unlock` events of its trace,
replayed on a free mutex, never lock a held mutex nor unlock a free one and
leave it free.  When `DestroyDataset` looks the dataset up, its trace is the
trace of that `GetDataset` call, which holds one `Lock`/`Unlock` pair, leaves
the lock free and holds no `Destroy` call, followed by a trace that holds no
lock event or one `Lock`/`Unlock` pair of its own. -/
theorem lock_never_nested_or_leaked (sys : Sys W) (name hostname : String)
    (properties : Properties) (dataset : Dataset) (flag : DestroyFlag)
    (uid gid perm : String) (s : State W) (hfree : s.locked = false) :
    (∃ r s' evs, GetDataset sys name hostname s = some (r, s') ∧ s'.locked = false ∧
      s'.trace = s.trace ++ evs ∧ replayLock false evs = some false) ∧
    (∃ r s' evs, CreateDataset sys name hostname properties s = some (r, s') ∧
      s'.locked = false ∧ s'.trace = s.trace ++ evs ∧ replayLock false evs = some false) ∧
    (∃ r s' evs, DestroyDataset sys dataset flag s = some (r, s') ∧ s'.locked = false ∧
      s'.trace = s.trace ++ evs ∧ replayLock false evs = some false) ∧
    (∃ r s' evs, SetPermissions sys dataset uid gid perm s = some (r, s') ∧
      s'.locked = false ∧ s'.trace = s.trace ++ evs ∧ replayLock false evs = some false) ∧
    (dataset.Name ≠ "" → dataset.Hostname ≠ "" → dataset.datasetImpl = none →
      ∃ r1 s1 evs1 r2 s2 evs2,
        GetDataset sys dataset.Name dataset.Hostname s = some (r1, s1) ∧
        s1.locked = false ∧ s1.trace = s.trace ++ evs1 ∧
        lockEvents evs1 = [Event.lock, Event.unlock] ∧
        evs1.countP Event.isDestroy = 0 ∧
        DestroyDataset sys dataset flag s = some (r2, s2) ∧
        s2.locked = false ∧ s2.trace = s1.trace ++ evs2 ∧
        replayLock false evs2 = some false ∧
        (lockEvents evs2 = [] ∨ lockEvents evs2 = [Event.lock, Event.unlock])) := by
  refine ⟨?_, ?_, ?_, ?_, ?_⟩
  · obtain ⟨r, s', evs, h, hl, ht, hr, -⟩ := GetDataset_lock_pair sys name hostname s hfree
    exact ⟨r, s', evs, h, hl, ht, hr⟩
  · rcases h1 : sys.Setenv s.world HostEnvVar hostname with ⟨_ | e1, w1⟩
    · rcases h2 : sys.CreateFilesystem w1 (setVar s.env HostEnvVar hostname) name properties
        with ⟨e2 | ds, w2⟩
      · exact ⟨_, _, _, CreateDataset_create_error sys _ _ _ s hfree e2 w1 w2 h1 h2,
          rfl, rfl, rfl⟩
      · exact ⟨_, _, _, CreateDataset_ok sys _ _ _ s hfree ds w1 w2 h1 h2, rfl, rfl, rfl⟩
    · exact ⟨_, _, _, CreateDataset_setenv_error sys _ _ _ s hfree e1 w1 h1, rfl, rfl, rfl⟩
  · obtain ⟨r, s', evs, hrun, hl, ht, hshape⟩ := DestroyDataset_shape sys dataset flag s hfree
    refine ⟨r, s', evs, hrun, hl, ht, ?_⟩
    rcases hshape with ⟨-, h⟩ | ⟨-, ⟨impl, -, ⟨-, h⟩ | ⟨-, h | h⟩⟩ |
      ⟨-, h | h | ⟨-, ds, h | h⟩⟩⟩ <;> subst h <;> rfl
  · rcases hv : validateDataset dataset with _ | e0
    · by_cases hmp : dataset.Mountpoint = ""
      · exact ⟨_, s, [], SetPermissions_no_mountpoint sys dataset uid gid perm s hv hmp,
          hfree, by simp, rfl⟩
      · rcases h1 : sys.Setenv s.world HostEnvVar dataset.Hostname with ⟨_ | e1, w1⟩
        · rcases h2 : sys.LookPath w1 (setVar s.env HostEnvVar dataset.Hostname)
            "update-permissions" with ⟨lp, w2⟩
          cases habs : filepathIsAbs (if lp = "" then "update-permissions" else lp)
          · rcases h3 : sys.Lstat w2 dataset.Mountpoint with ⟨e3 | m, w3⟩
            · exact ⟨_, _, _, SetPermissions_lstat_error sys dataset uid gid perm s hv hmp
                hfree w1 w2 w3 lp e3 h1 h2 habs h3, rfl, rfl, rfl⟩
            · exact ⟨_, _, _, SetPermissions_chmod sys dataset uid gid perm s hv hmp
                hfree w1 w2 w3 _ lp m _ h1 h2 habs h3 rfl, rfl, rfl, rfl⟩
          · rcases h3 : sys.CombinedOutput w2 (setVar s.env HostEnvVar dataset.Hostname)
                (if lp = "" then "update-permissions" else lp)
                ["update-permissions", dataset.Mountpoint, uid, gid, perm] with ⟨⟨out, r⟩, w3⟩
            exact ⟨_, _, _, SetPermissions_helper sys dataset uid gid perm s hv hmp
              hfree w1 w2 w3 lp out r h1 h2 habs h3, rfl, rfl, rfl⟩
        · exact ⟨_, _, _, SetPermissions_setenv_error sys dataset uid gid perm s hv hmp
            hfree e1 w1 h1, rfl, rfl, rfl⟩
    · exact ⟨_, s, [], SetPermissions_invalid sys dataset uid gid perm s e0 hv,
        hfree, by simp, rfl⟩
  · intro hname hhost himpl
    have hv := validateDataset_ok dataset hname hhost
    obtain ⟨r1, s1, evs1, hget, hl1, ht1, -, hlk1, hnd1, -⟩ :=
      GetDataset_lock_pair sys dataset.Name dataset.Hostname s hfree
    obtain ⟨rd, re⟩ := r1
    cases re with
    | some e1 =>
      exact ⟨_, s1, evs1, _, s1, [], hget, hl1, ht1, hlk1, hnd1,
        DestroyDataset_lookup_error sys dataset flag s s1 e1 hv himpl
          (by
            cases rd with
            | none => exact hget
            | some d0 =>
              exfalso
              rcases h1 : sys.Setenv s.world HostEnvVar dataset.Hostname with ⟨_ | e1', w1⟩
              · rcases h2 : sys.GetDataset w1 (setVar s.env HostEnvVar dataset.Hostname)
                  dataset.Name with ⟨e2 | ds, w2⟩
                · rw [GetDataset_lookup_error sys _ _ s hfree e2 w1 w2 h1 h2] at hget
                  simp at hget
                · rw [GetDataset_ok sys _ _ s hfree ds w1 w2 h1 h2] at hget
                  simp at hget
              · rw [GetDataset_setenv_error sys _ _ s hfree e1' w1 h1] at hget
                simp at hget),
        hl1, by simp, rfl, Or.inl rfl⟩
    | none =>
      cases rd with
      | none =>
        exfalso
        rcases h1 : sys.Setenv s.world HostEnvVar dataset.Hostname with ⟨_ | e1', w1⟩
        · rcases h2 : sys.GetDataset w1 (setVar s.env HostEnvVar dataset.Hostname)
            dataset.Name with ⟨e2 | ds, w2⟩
          · rw [GetDataset_lookup_error sys _ _ s hfree e2 w1 w2 h1 h2] at hget
            simp at hget
          · rw [GetDataset_ok sys _ _ s hfree ds w1 w2 h1 h2] at hget
            simp at hget
        · rw [GetDataset_setenv_error sys _ _ s hfree e1' w1 h1] at hget
          simp at hget
      | some ds =>
        have himpl' : ∃ impl, ds.datasetImpl = some impl := by
          rcases h1 : sys.Setenv s.world HostEnvVar dataset.Hostname with ⟨_ | e1', w1⟩
          · rcases h2 : sys.GetDataset w1 (setVar s.env HostEnvVar dataset.Hostname)
              dataset.Name with ⟨e2 | d0, w2⟩
            · rw [GetDataset_lookup_error sys _ _ s hfree e2 w1 w2 h1 h2] at hget
              simp at hget
            · rw [GetDataset_ok sys _ _ s hfree d0 w1 w2 h1 h2] at hget
              simp only [Option.some.injEq, Prod.mk.injEq] at hget
              obtain ⟨⟨hd, -⟩, -⟩ := hget
              exact ⟨d0, by rw [← hd]⟩
          · rw [GetDataset_setenv_error sys _ _ s hfree e1' w1 h1] at hget
            simp at hget
        obtain ⟨impl, hi⟩ := himpl'
        obtain ⟨r2, s2, evs2, hd, hl2, ht2, hr2, hlk2⟩ :=
          destroy_lock_pair sys { dataset with datasetImpl := ds.datasetImpl } impl flag s1
            hi hl1
        exact ⟨_, s1, evs1, r2, s2, evs2, hget, hl1, ht1, hlk1, hnd1,
          by rw [DestroyDataset_lookup_ok sys dataset flag s s1 ds hv himpl hget]; exact hd,
          hl2, ht2, hr2, hlk2⟩

/-- C9 on the in-memory world: `DestroyDataset` on `tank/vol1` of `node-a`
without a handle returns with the lock free and a well-paired lock trace, made
of the pair of the lookup and the pair of the destructive call. -/
theorem lock_never_nested_or_leaked_witness :
    (∃ r s' evs, DestroyDataset memSys
        { datasetImpl := none, Name := "tank/vol1", Mountpoint := "", Hostname := "node-a" }
        DestroyRecursively memState = some (r, s') ∧ s'.locked = false ∧
      s'.trace = memState.trace ++ evs ∧ replayLock false evs = some false) ∧
    ((DestroyDataset memSys
        { datasetImpl := none, Name := "tank/vol1", Mountpoint := "", Hostname := "node-a" }
        DestroyRecursively memState).map (fun x => lockEvents x.2.trace) =
      some [Event.lock, Event.unlock, Event.lock, Event.unlock]) :=
  ⟨(lock_never_nested_or_leaked memSys "tank/vol1" "node-a" []
      { datasetImpl := none, Name := "tank/vol1", Mountpoint := "", Hostname := "node-a" }
      DestroyRecursively "1000" "1000" "0770" memState rfl).2.2.1, by decide⟩

/-! ## C3: two concurrent `CreateDataset` calls -/

theorem pc_holds_start : Pc.start.holds = false := rfl

theorem pc_holds_locked : Pc.locked.holds = true := rfl

theorem pc_holds_create : Pc.create.holds = true := rfl

theorem pc_holds_unlock (r : Option Dataset × Option GoError) : (Pc.unlock r).holds = true := rfl

theorem pc_holds_done (r : Option Dataset × Option GoError) : (Pc.done r).holds = false := rfl

theorem conc_init_inv (a b : Call) (s : State W) (hfree : s.locked = false) :
    Conc.Inv a b (Conc.init s) := by
  simp [Conc.Inv, Conc.init, pc_holds_start, hfree]

/-- One action of a call keeps the invariant, seen from the call that moves
(`pc`, host `c.hostname`) and the one that does not (`pcO`, host `hostO`). -/
theorem call_step_inv (sys : Sys W) (c : Call) (t : Tid) (pc pc' pcO : Pc) (hostO : String)
    (s s' : State W)
    (hl : s.locked = (pc.holds || pcO.holds))
    (hex : pc.holds = false ∨ pcO.holds = false)
    (hme : pc = Pc.create → Getenv s.env HostEnvVar = some c.hostname)
    (hother : pcO = Pc.create → Getenv s.env HostEnvVar = some hostO)
    (hstep : c.step sys pc s = some (pc', s')) :
    s'.locked = (pc'.holds || pcO.holds) ∧
    (pc'.holds = false ∨ pcO.holds = false) ∧
    (pc' = Pc.create → Getenv s'.env HostEnvVar = some c.hostname) ∧
    (pcO = Pc.create → Getenv s'.env HostEnvVar = some hostO) ∧
    ∀ p ∈ observe t pc s, p.2 = some c.hostname := by
  obtain ⟨w, env, locked, tr⟩ := s
  simp only at hl hme hother
  cases pc with
  | start =>
    have hO : pcO.holds = false := by
      cases hh : pcO.holds
      · rfl
      · simp [pc_holds_start, hh] at hl
        simp [Call.step, Lock, klog, State.emit, hl] at hstep
    have hloc : locked = false := by simp [hl, pc_holds_start, pc_holds_done, hO]
    subst hloc
    simp [Call.step, Lock, klog, State.emit] at hstep
    obtain ⟨h1, h2⟩ := hstep
    subst h1 h2
    refine ⟨by simp [pc_holds_start, pc_holds_locked, pc_holds_create, pc_holds_unlock, pc_holds_done], Or.inr hO, by simp, ?_, by simp [observe]⟩
    intro hc
    simp [hc, pc_holds_start, pc_holds_locked, pc_holds_create, pc_holds_unlock, pc_holds_done] at hO
  | locked =>
    have hO : pcO.holds = false := by simpa [pc_holds_start, pc_holds_locked, pc_holds_create, pc_holds_unlock, pc_holds_done] using hex
    have hloc : locked = true := by simp [hl, pc_holds_start, pc_holds_locked, pc_holds_create, pc_holds_unlock, pc_holds_done]
    subst hloc
    have hne : pcO ≠ Pc.create := by
      intro hc
      simp [hc, pc_holds_start, pc_holds_locked, pc_holds_create, pc_holds_unlock, pc_holds_done] at hO
    rcases h1 : sys.Setenv w HostEnvVar c.hostname with ⟨_ | e1, w1⟩
    · simp [Call.step, setEnvironmentVars, osSetenv, h1] at hstep
      obtain ⟨h1, h2⟩ := hstep
      subst h1 h2
      exact ⟨by simp [pc_holds_start, pc_holds_locked, pc_holds_create, pc_holds_unlock, pc_holds_done], Or.inr hO, fun _ => Getenv_setVar _ _ _,
        fun hc => absurd hc hne, by simp [observe]⟩
    · simp [Call.step, setEnvironmentVars, osSetenv, h1] at hstep
      obtain ⟨h1, h2⟩ := hstep
      subst h1 h2
      exact ⟨by simp [pc_holds_start, pc_holds_locked, pc_holds_create, pc_holds_unlock, pc_holds_done], Or.inr hO, by simp,
        fun hc => absurd hc hne, by simp [observe]⟩
  | create =>
    have hO : pcO.holds = false := by simpa [pc_holds_start, pc_holds_locked, pc_holds_create, pc_holds_unlock, pc_holds_done] using hex
    have hloc : locked = true := by simp [hl, pc_holds_start, pc_holds_locked, pc_holds_create, pc_holds_unlock, pc_holds_done]
    subst hloc
    have hne : pcO ≠ Pc.create := by
      intro hc
      simp [hc, pc_holds_start, pc_holds_locked, pc_holds_create, pc_holds_unlock, pc_holds_done] at hO
    have hobs : ∀ p ∈ observe t Pc.create
        ({ world := w, env := env, locked := true, trace := tr } : State W),
        p.2 = some c.hostname := by
      intro p hp
      simp [observe] at hp
      subst hp
      exact hme rfl
    rcases h1 : sys.CreateFilesystem w env c.name c.properties with ⟨e1 | ds, w1⟩
    · simp [Call.step, gozfsCreateFilesystem, klog, State.emit, h1] at hstep
      obtain ⟨h1, h2⟩ := hstep
      subst h1 h2
      exact ⟨by simp [pc_holds_start, pc_holds_locked, pc_holds_create, pc_holds_unlock, pc_holds_done], Or.inr hO, by simp, fun hc => absurd hc hne, hobs⟩
    · simp [Call.step, gozfsCreateFilesystem, klog, State.emit, h1] at hstep
      obtain ⟨h1, h2⟩ := hstep
      subst h1 h2
      exact ⟨by simp [pc_holds_start, pc_holds_locked, pc_holds_create, pc_holds_unlock, pc_holds_done], Or.inr hO, by simp, fun hc => absurd hc hne, hobs⟩
  | unlock r =>
    have hO : pcO.holds = false := by simpa [pc_holds_start, pc_holds_locked, pc_holds_create, pc_holds_unlock, pc_holds_done] using hex
    have hloc : locked = true := by simp [hl, pc_holds_start, pc_holds_locked, pc_holds_create, pc_holds_unlock, pc_holds_done]
    subst hloc
    have hne : pcO ≠ Pc.create := by
      intro hc
      simp [hc, pc_holds_start, pc_holds_locked, pc_holds_create, pc_holds_unlock, pc_holds_done] at hO
    simp [Call.step, Unlock] at hstep
    obtain ⟨h1, h2⟩ := hstep
    subst h1 h2
    exact ⟨by simp [pc_holds_start, pc_holds_done, hO], Or.inr hO, by simp, fun hc => absurd hc hne,
      by simp [observe]⟩
  | done r =>
    simp [Call.step] at hstep

theorem conc_step_inv (sys : Sys W) (a b : Call) (t : Tid) (c : Conc W)
    (h : Conc.Inv a b c) : Conc.Inv a b (Conc.step sys a b t c) := by
  obtain ⟨hl, hex, hA, hB, hobs⟩ := h
  cases t
  · rcases hs : a.step sys c.pcA c.shared with _ | ⟨pc', s'⟩
    · simpa [Conc.step, hs] using ⟨hl, hex, hA, hB, hobs⟩
    · obtain ⟨g1, g2, g3, g4, g5⟩ :=
        call_step_inv sys a Tid.A c.pcA pc' c.pcB b.hostname c.shared s' hl hex hA hB hs
      simp only [Conc.step, hs]
      refine ⟨g1, g2, g3, g4, ?_⟩
      intro p hp
      rcases List.mem_append.mp hp with hp | hp
      · exact hobs p hp
      · have hp1 : p.1 = Tid.A := by
          cases hpc : c.pcA <;> simp [observe, hpc] at hp
          rw [hp]
        rw [hp1]
        exact g5 p hp
  · rcases hs : b.step sys c.pcB c.shared with _ | ⟨pc', s'⟩
    · simpa [Conc.step, hs] using ⟨hl, hex, hA, hB, hobs⟩
    · obtain ⟨g1, g2, g3, g4, g5⟩ :=
        call_step_inv sys b Tid.B c.pcB pc' c.pcA a.hostname c.shared s'
          (by rw [hl, Bool.or_comm]) hex.symm hB hA hs
      simp only [Conc.step, hs]
      refine ⟨by rw [g1, Bool.or_comm], g2.symm, g4, g3, ?_⟩
      intro p hp
      rcases List.mem_append.mp hp with hp | hp
      · exact hobs p hp
      · have hp1 : p.1 = Tid.B := by
          cases hpc : c.pcB <;> simp [observe, hpc] at hp
          rw [hp]
        rw [hp1]
        exact g5 p hp

theorem conc_exec_inv (sys : Sys W) (a b : Call) (sched : List Tid) (c : Conc W)
    (h : Conc.Inv a b c) : Conc.Inv a b (Conc.exec sys a b sched c) := by
  induction sched generalizing c with
  | nil => exact h
  | cons t ts ih => exact ih _ (conc_step_inv sys a b t c h)

/-- The steps of one call, run alone from a free lock, are `CreateDataset`. -/
theorem conc_exec_alone (sys : Sys W) (a b : Call) (s : State W) (hfree : s.locked = false) :
    ∃ r s', CreateDataset sys a.name a.hostname a.properties s = some (r, s') ∧
      (Conc.exec sys a b [Tid.A, Tid.A, Tid.A, Tid.A] (Conc.init s)).pcA = Pc.done r ∧
      (Conc.exec sys a b [Tid.A, Tid.A, Tid.A, Tid.A] (Conc.init s)).shared = s' := by
  obtain ⟨w, env, locked, tr⟩ := s
  simp only at hfree
  subst hfree
  rcases h1 : sys.Setenv w HostEnvVar a.hostname with ⟨_ | e1, w1⟩
  · rcases h2 : sys.CreateFilesystem w1 (setVar env HostEnvVar a.hostname) a.name a.properties
      with ⟨e2 | ds, w2⟩
    · refine ⟨_, _, CreateDataset_create_error sys _ _ _ _ rfl e2 w1 w2 h1 h2, ?_, ?_⟩ <;>
        simp [Conc.exec, Conc.step, Conc.init, Call.step, Lock, Unlock, klog, State.emit,
          setEnvironmentVars, osSetenv, gozfsCreateFilesystem, h1, h2]
    · refine ⟨_, _, CreateDataset_ok sys _ _ _ _ rfl ds w1 w2 h1 h2, ?_, ?_⟩ <;>
        simp [Conc.exec, Conc.step, Conc.init, Call.step, Lock, Unlock, klog, State.emit,
          setEnvironmentVars, osSetenv, gozfsCreateFilesystem, h1, h2]
  · refine ⟨_, _, CreateDataset_setenv_error sys _ _ _ _ rfl e1 w1 h1, ?_, ?_⟩ <;>
      simp [Conc.exec, Conc.step, Conc.init, Call.step, Lock, Unlock, klog, State.emit,
        setEnvironmentVars, osSetenv, gozfsCreateFilesystem, h1]

/-- C3: two `CreateDataset` calls are started with the lock free and their
actions (`Lock`, `os.Setenv`, `gozfs.CreateFilesystem`, `Unlock`) are
interleaved by an arbitrary schedule.  Every remote create that is executed
runs while `ZFS_HOST` is the host of the call that issued it; so when the two
hosts differ, the remote create of one call never runs while `ZFS_HOST` is the
host of the other.  At any moment a call that is about to run its remote create
sees its own host in `ZFS_HOST`, and at most one call holds the lock. -/
theorem create_selector_never_interleaved (sys : Sys W) (a b : Call) (s : State W)
    (sched : List Tid) (hfree : s.locked = false) :
    (∀ p ∈ (Conc.exec sys a b sched (Conc.init s)).observed, p.2 = some (hostOf a b p.1)) ∧
    (a.hostname ≠ b.hostname →
      (Tid.A, some b.hostname) ∉ (Conc.exec sys a b sched (Conc.init s)).observed ∧
      (Tid.B, some a.hostname) ∉ (Conc.exec sys a b sched (Conc.init s)).observed) ∧
    ((Conc.exec sys a b sched (Conc.init s)).pcA = Pc.create →
      Getenv (Conc.exec sys a b sched (Conc.init s)).shared.env HostEnvVar
        = some a.hostname) ∧
    ((Conc.exec sys a b sched (Conc.init s)).pcB = Pc.create →
      Getenv (Conc.exec sys a b sched (Conc.init s)).shared.env HostEnvVar
        = some b.hostname) ∧
    ((Conc.exec sys a b sched (Conc.init s)).pcA.holds = false ∨
      (Conc.exec sys a b sched (Conc.init s)).pcB.holds = false) := by
  obtain ⟨-, hex, hA, hB, hobs⟩ :=
    conc_exec_inv sys a b sched (Conc.init s) (conc_init_inv a b s hfree)
  refine ⟨hobs, ?_, hA, hB, hex⟩
  intro hne
  constructor
  · intro hmem
    have := hobs _ hmem
    simp only [hostOf, Option.some.injEq] at this
    exact hne this.symm
  · intro hmem
    have := hobs _ hmem
    simp only [hostOf, Option.some.injEq] at this
    exact hne this

/-- C3 on the in-memory world: creating `tank/vol2` on `node-a` and
`tank/vol3` on `node-b` under a schedule that alternates the two calls; both
remote creates run, each under its own host. -/
theorem create_selector_never_interleaved_witness :
    (Conc.exec memSys
        { name := "tank/vol2", hostname := "node-a", properties := [] }
        { name := "tank/vol3", hostname := "node-b", properties := [] }
        [Tid.A, Tid.B, Tid.A, Tid.B, Tid.A, Tid.B, Tid.A, Tid.B, Tid.B, Tid.B, Tid.B]
        (Conc.init memState)).observed
      = [(Tid.A, some "node-a"), (Tid.B, some "node-b")] ∧
    (Tid.A, some "node-b") ∉ (Conc.exec memSys
        { name := "tank/vol2", hostname := "node-a", properties := [] }
        { name := "tank/vol3", hostname := "node-b", properties := [] }
        [Tid.A, Tid.B, Tid.A, Tid.B, Tid.A, Tid.B, Tid.A, Tid.B, Tid.B, Tid.B, Tid.B]
        (Conc.init memState)).observed :=
  ⟨by decide,
   ((create_selector_never_interleaved memSys
      { name := "tank/vol2", hostname := "node-a", properties := [] }
      { name := "tank/vol3", hostname := "node-b", properties := [] }
      memState
      [Tid.A, Tid.B, Tid.A, Tid.B, Tid.A, Tid.B, Tid.A, Tid.B, Tid.B, Tid.B, Tid.B]
      rfl).2.1 (by decide)).1⟩

end zfs
